import Mathlib

/-!
# Chat client: session restore, send controller and message formatter

A shallow embedding of the chat front-end (`chat-ui/src/App.jsx`,
`chat-ui/src/components/ChatWidget.jsx`, `chat-ui/src/components/ChatInput.jsx`,
`chat-ui/src/components/ChatBubble.jsx`, `chat-ui/src/services/api.js`).

* JavaScript strings are Lean strings; the string algorithms work on their characters
  (code points). Every character the patterns below name lies in the basic plane, so for a
  well-formed string the pieces are the same as by UTF-16 code units.
* `localStorage` is an association list from keys to string values.
* React state is an explicit record; an event handler maps the record (and the storage)
  to the record after the handler has run to completion.
* The backend is an oracle passed as an argument; every transport call a handler makes is
  recorded.
* The widget is a state machine: an event carries what the backend answers, and a step is
  the handler or effect of the event with its request settled before the next event.
-/

namespace Chatbot

/-! ## JavaScript strings -/

/-- ECMAScript `LineTerminator`: LF, CR, LS, PS. The regular expression atom `.`
matches every character except these. -/
def isLineTerminator (c : Char) : Bool :=
  c.toNat == 0x0A || c.toNat == 0x0D || c.toNat == 0x2028 || c.toNat == 0x2029

/-- ECMAScript `WhiteSpace` together with `LineTerminator`: the characters removed by
`String.prototype.trim` and matched by the regular expression class `\s`. -/
def isWhiteSpace (c : Char) : Bool :=
  c.toNat == 0x09 || c.toNat == 0x0A || c.toNat == 0x0B || c.toNat == 0x0C ||
  c.toNat == 0x0D || c.toNat == 0x20 || c.toNat == 0xA0 || c.toNat == 0x1680 ||
  (0x2000 ≤ c.toNat && c.toNat ≤ 0x200A) || c.toNat == 0x2028 || c.toNat == 0x2029 ||
  c.toNat == 0x202F || c.toNat == 0x205F || c.toNat == 0x3000 || c.toNat == 0xFEFF

/-- The regular expression class `\d`: the ten ASCII digits. -/
def isDigit (c : Char) : Bool :=
  0x30 ≤ c.toNat && c.toNat ≤ 0x39

/-- JavaScript truthiness of a string value: every string but the empty one. -/
def truthy (s : String) : Bool :=
  s != ""

/-- JavaScript truthiness of a value that is `null`/`undefined` or a string. -/
def truthyOpt : Option String → Bool
  | none => false
  | some s => truthy s

/-- `String.prototype.trim`, on characters. -/
def trim (s : List Char) : List Char :=
  ((s.dropWhile isWhiteSpace).reverse.dropWhile isWhiteSpace).reverse

/-- `String.prototype.split` with a one-character separator, on characters. -/
def splitOn (sep : Char) : List Char → List (List Char)
  | [] => [[]]
  | c :: cs =>
    if c = sep then [] :: splitOn sep cs
    else
      match splitOn sep cs with
      | [] => [[c]]
      | seg :: segs => (c :: seg) :: segs

/-- `part.startsWith(pat)` -/
def startsWith (part pat : List Char) : Bool :=
  pat.isPrefixOf part

/-- `part.endsWith(pat)` -/
def endsWith (part pat : List Char) : Bool :=
  pat.isSuffixOf part

/-- `part.slice(2, -2)`: from index `min 2 len` up to index `max (len - 2) 0`,
empty when the two cross. -/
def slice2 (part : List Char) : List Char :=
  (part.drop 2).take (part.length - 2 - 2)

/-! ## localStorage -/

/-- The persisted key/value pairs of `localStorage`. -/
abbrev Storage := List (String × String)

/-- `localStorage.getItem(key)`: the stored string, `none` for `null`. -/
def getItem (ls : Storage) (key : String) : Option String :=
  (ls.find? (fun kv => kv.1 == key)).map (fun kv => kv.2)

/-- `localStorage.removeItem(key)` -/
def removeItem (ls : Storage) (key : String) : Storage :=
  ls.filter (fun kv => kv.1 != key)

/-- `localStorage.setItem(key, value)`: overwrite in place, or add at the end. -/
def setItem (ls : Storage) (key value : String) : Storage :=
  if (ls.any (fun kv => kv.1 == key)) then
    ls.map (fun kv => if kv.1 == key then (key, value) else kv)
  else ls ++ [(key, value)]

/-! ## JSON.parse

`JSON.parse` belongs to the platform. It is modelled by the JSON grammar; the result is the
parse tree of the text, with numbers and strings kept as their validated lexemes. -/

/-- A parsed JSON text. -/
inductive Json where
  | null
  | bool (b : Bool)
  | num (lexeme : String)
  | str (raw : String)
  | arr (items : List Json)
  | obj (members : List (String × Json))

/-- JSON insignificant whitespace: space, tab, line feed, carriage return. -/
def isJsonWs (c : Char) : Bool :=
  c.toNat == 0x20 || c.toNat == 0x09 || c.toNat == 0x0A || c.toNat == 0x0D

def isHexDigit (c : Char) : Bool :=
  isDigit c || (0x41 ≤ c.toNat && c.toNat ≤ 0x46) || (0x61 ≤ c.toNat && c.toNat ≤ 0x66)

/-- The characters allowed after a backslash in a JSON string, `u` apart. -/
def isSimpleEscape (c : Char) : Bool :=
  c == '"' || c == '\\' || c == '/' || c == 'b' || c == 'f' || c == 'n' || c == 'r' || c == 't'

/-- The body of a JSON string after its opening quote: the raw characters up to the
closing quote, and what follows the closing quote. -/
def jsonStringBody : List Char → Option (List Char × List Char)
  | [] => none
  | c :: cs =>
    if c == '"' then some ([], cs)
    else if c.toNat < 0x20 then none
    else if c == '\\' then
      match cs with
      | [] => none
      | e :: rest =>
        if isSimpleEscape e then
          (jsonStringBody rest).map (fun p => (c :: e :: p.1, p.2))
        else if e == 'u' then
          match rest with
          | h1 :: h2 :: h3 :: h4 :: rest2 =>
            if isHexDigit h1 && isHexDigit h2 && isHexDigit h3 && isHexDigit h4 then
              (jsonStringBody rest2).map (fun p => (c :: e :: h1 :: h2 :: h3 :: h4 :: p.1, p.2))
            else none
          | _ => none
        else none
    else (jsonStringBody cs).map (fun p => (c :: p.1, p.2))

/-- The digits at the head of the text, and the rest. -/
def spanDigits (s : List Char) : List Char × List Char :=
  (s.takeWhile isDigit, s.dropWhile isDigit)

/-- A JSON number at the head of the text,
`-? (0 | [1-9][0-9]*) (\.[0-9]+)? ([eE][+-]?[0-9]+)?`: its lexeme and the rest. -/
def jsonNumber (s : List Char) : Option (List Char × List Char) :=
  let sign : List Char := if s.head? == some '-' then ['-'] else []
  let s1 := s.drop sign.length
  let int : List Char := if s1.head? == some '0' then ['0'] else (spanDigits s1).1
  let s2 := s1.drop int.length
  if int = [] then none
  else
    let fracDigits := (spanDigits (s2.drop 1)).1
    let hasFrac := s2.head? == some '.'
    let frac : List Char := if hasFrac then '.' :: fracDigits else []
    let s3 := s2.drop frac.length
    if hasFrac && fracDigits = [] then none
    else
      let hasExp := s3.head? == some 'e' || s3.head? == some 'E'
      let s4 := s3.drop 1
      let expSign : List Char :=
        if s4.head? == some '+' || s4.head? == some '-' then s4.take 1 else []
      let expDigits := (spanDigits (s4.drop expSign.length)).1
      let exp : List Char := if hasExp then s3.take 1 ++ expSign ++ expDigits else []
      if hasExp && expDigits = [] then none
      else some (sign ++ int ++ frac ++ exp, s3.drop exp.length)

/-- Drop JSON whitespace at the head of the text. -/
def skipWs (s : List Char) : List Char :=
  s.dropWhile isJsonWs

mutual

/-- A JSON value at the head of the text (whitespace already skipped), and the rest.
The first argument bounds the number of nested calls; every call consumes a character,
so the length of the text is enough. -/
def jsonValue : Nat → List Char → Option (Json × List Char)
  | 0, _ => none
  | n + 1, s =>
    if startsWith s "null".data then some (Json.null, s.drop 4)
    else if startsWith s "true".data then some (Json.bool true, s.drop 4)
    else if startsWith s "false".data then some (Json.bool false, s.drop 5)
    else
      match s with
      | [] => none
      | c :: r =>
        if c == '"' then
          (jsonStringBody r).map (fun p => (Json.str (String.mk p.1), p.2))
        else if c == '[' then
          if (skipWs r).head? == some ']' then some (Json.arr [], (skipWs r).drop 1)
          else (jsonElements n (skipWs r)).map (fun p => (Json.arr p.1, p.2))
        else if c == '\x7b' then
          if (skipWs r).head? == some '\x7d' then some (Json.obj [], (skipWs r).drop 1)
          else (jsonMembers n (skipWs r)).map (fun p => (Json.obj p.1, p.2))
        else (jsonNumber s).map (fun p => (Json.num (String.mk p.1), p.2))

/-- The elements of a non-empty array up to and including the closing bracket. -/
def jsonElements : Nat → List Char → Option (List Json × List Char)
  | 0, _ => none
  | n + 1, s =>
    match jsonValue n s with
    | none => none
    | some (v, r) =>
      match skipWs r with
      | [] => none
      | c :: r2 =>
        if c == ',' then (jsonElements n (skipWs r2)).map (fun p => (v :: p.1, p.2))
        else if c == ']' then some ([v], r2)
        else none

/-- The members of a non-empty object up to and including the closing brace. -/
def jsonMembers : Nat → List Char → Option (List (String × Json) × List Char)
  | 0, _ => none
  | n + 1, s =>
    match s with
    | [] => none
    | q :: r =>
      if q == '"' then
        match jsonStringBody r with
        | none => none
        | some (key, r1) =>
          match skipWs r1 with
          | [] => none
          | colon :: r2 =>
            if colon == ':' then
              match jsonValue n (skipWs r2) with
              | none => none
              | some (v, r3) =>
                match skipWs r3 with
                | [] => none
                | c :: r4 =>
                  if c == ',' then
                    (jsonMembers n (skipWs r4)).map (fun p => ((String.mk key, v) :: p.1, p.2))
                  else if c == '\x7d' then some ([(String.mk key, v)], r4)
                  else none
            else none
      else none

end

/-- The platform function `JSON.parse(text)`: `none` when it throws a `SyntaxError`. -/
def JSON.parse (text : String) : Option Json :=
  match jsonValue (text.data.length + 1) (skipWs text.data) with
  | none => none
  | some (v, rest) => if skipWs rest = [] then some v else none

/-! ## fetch -/

/-- What a call of `fetch` settles to: a rejected promise (network error), or a response
with its `ok` flag and the result of `response.json()` (an error when the body cannot be
read). -/
inductive FetchResult (β : Type) where
  | rejected (message : String)
  | response (ok : Bool) (json : Except String β)

/-! ## App.jsx: the session store -/

/-- One entry of the conversation list returned by the backend. -/
structure ConversationSummary where
  id : String
  title : Option String
  message_count : Nat
  last_message_at : Option String
  created_at : Option String
deriving DecidableEq, Repr

/-- The React state of `App`. `none` stands for `null`; the user is a JavaScript value,
`Json.null` for `null`. -/
structure AppState where
  isAuthenticated : Bool
  user : Json
  token : Option String
  conversations : List ConversationSummary
  activeConversationId : Option String

/-- The state `App` is created with (`useState` initial values). -/
def App.initial : AppState :=
  { isAuthenticated := false, user := Json.null, token := none, conversations := [],
    activeConversationId := none }

/-- The condition `storedToken && storedUser && storedUser !== 'undefined'` of the mount
effect, on the two fields read from the storage. -/
def restoreGuard (ls : Storage) : Bool :=
  truthyOpt (getItem ls "token") && truthyOpt (getItem ls "user") &&
    getItem ls "user" != some "undefined"

/-- The mount effect of `App` (App.jsx lines 15-32): read the two persisted fields and
restore the session. `setToken` runs before `JSON.parse`, so it has taken effect when the
parse throws. -/
def restore (s : AppState) (ls : Storage) : AppState × Storage :=
  let storedToken := getItem ls "token"
  let storedUser := getItem ls "user"
  if restoreGuard ls then
    match JSON.parse (storedUser.getD "") with
    | some u => ({ s with token := storedToken, user := u, isAuthenticated := true }, ls)
    | none => ({ s with token := storedToken }, removeItem (removeItem ls "token") "user")
  else (s, ls)

/-- The handler `handleLogout` (App.jsx lines 58-67). -/
def handleLogout (s : AppState) (ls : Storage) : AppState × Storage :=
  ({ s with isAuthenticated := false, token := none, user := Json.null, conversations := [],
            activeConversationId := none },
    removeItem (removeItem (removeItem ls "token") "user") "conversationId")

/-- The value of `data.conversations` in the body of `GET /api/user/conversations`: a falsy
value (`undefined`, `null`, `false`, `0`, the empty string), an array of summaries, or any
other value (truthy and not an array). -/
inductive ConversationsValue where
  | falsy
  | array (convs : List ConversationSummary)
  | other

/-- The transport function `getUserConversations(token)` of services/api.js (lines 77-90),
given by what the request settles to for a token: it throws on a rejected request and on a
non-success status; else the value of `data.conversations || []`. An error of the `json`
part also stands for a body on which the property access throws. -/
def getUserConversations (fetchConversations : Option String → FetchResult ConversationsValue)
    (token : Option String) : Except String ConversationsValue :=
  match fetchConversations token with
  | FetchResult.rejected e => Except.error e
  | FetchResult.response ok json =>
    if !ok then Except.error "Failed to get conversations"
    else
      match json with
      | Except.error e => Except.error e
      | Except.ok ConversationsValue.falsy => Except.ok (ConversationsValue.array [])
      | Except.ok v => Except.ok v

/-- The function `loadConversations` (App.jsx lines 40-48): the `try` block, and the `catch`
block as the handler of what the `try` block throws. An error result is an exception that
leaves the function. -/
def loadConversations (fetchConversations : Option String → FetchResult ConversationsValue)
    (s : AppState) : Except String AppState :=
  Except.tryCatch
    ((getUserConversations fetchConversations s.token).bind (fun convs =>
      match convs with
      | ConversationsValue.array cs => Except.ok { s with conversations := cs }
      | _ => Except.ok { s with conversations := [] }))
    (fun _ => Except.ok { s with conversations := [] })

/-! ## ChatWidget.jsx: the chat session controller -/

inductive Role where
  | user
  | assistant
deriving DecidableEq, Repr

/-- A transcript entry. `needsHuman = none` when the object has no such field. -/
structure Message where
  role : Role
  content : String
  timestamp : String
  needsHuman : Option Bool
deriving DecidableEq, Repr

/-- The body of a successful `/api/chat` response. `needs_human = none` when absent. -/
structure ChatResponse where
  conversation_id : String
  reply : String
  needs_human : Option Bool
deriving DecidableEq, Repr

/-- The props of `ChatWidget`. `onConversationCreated` tells whether a callback was passed
(`App` passes `loadConversations`). -/
structure ChatProps where
  token : Option String
  conversationId : Option String
  onConversationCreated : Bool

/-- The React state of `ChatWidget`. -/
structure ChatState where
  messages : List Message
  conversationId : Option String
  isLoading : Bool
  humanHandoff : Bool
  welcomeMessage : String
  showPopup : Bool
deriving DecidableEq, Repr

/-- The transport function `sendMessage(message, conversationId, token)` of
services/api.js (lines 3-21) over the `POST /api/chat` request, given by what the request
settles to for a message, a conversation id and a token: it throws on a rejected request
and on a non-success status, and returns the body else. -/
def sendMessage (fetchChat : String → Option String → Option String → FetchResult ChatResponse)
    (message : String) (conversationId token : Option String) : Except String ChatResponse :=
  match fetchChat message conversationId token with
  | FetchResult.rejected e => Except.error e
  | FetchResult.response ok json =>
    if !ok then Except.error "Failed to send message" else json

/-- What a run of `handleSendMessage` meets outside the component: the backend behind
`POST /api/chat` and the two readings of the clock. -/
structure SendEnv where
  fetchChat : String → Option String → Option String → FetchResult ChatResponse
  sentAt : String
  repliedAt : String

/-- The result of a run of `handleSendMessage`: the state and storage it leaves, the
calls of `sendMessage` it made (with their arguments) and how often it called
`onConversationCreated`. -/
structure SendOutcome where
  state : ChatState
  storage : Storage
  transportCalls : List (String × Option String × Option String)
  refreshCalls : Nat

/-- The text of the synthetic assistant message appended when a send fails. -/
def apology : String := "Sorry, an error occurred. Please try again."

/-- The handler `handleSendMessage` (ChatWidget.jsx lines 90-138), run to completion. -/
def handleSendMessage (props : ChatProps) (env : SendEnv) (s : ChatState) (ls : Storage)
    (messageText : String) : SendOutcome :=
  if s.humanHandoff then
    { state := s, storage := ls, transportCalls := [], refreshCalls := 0 }
  else
    let userMessage : Message :=
      { role := Role.user, content := messageText, timestamp := env.sentAt, needsHuman := none }
    let s1 := { s with messages := s.messages ++ [userMessage], isLoading := true }
    let calls := [(messageText, s.conversationId, props.token)]
    match sendMessage env.fetchChat messageText s.conversationId props.token with
    | Except.ok response =>
      let adopt := !(truthyOpt s.conversationId)
      let s2 := if adopt then { s1 with conversationId := some response.conversation_id } else s1
      let ls2 := if adopt then setItem ls "conversationId" response.conversation_id else ls
      let refresh := if adopt && props.onConversationCreated then 1 else 0
      let assistantMessage : Message :=
        { role := Role.assistant, content := response.reply, timestamp := env.repliedAt,
          needsHuman := some (response.needs_human.getD false) }
      let s3 := { s2 with messages := s2.messages ++ [assistantMessage] }
      let s4 := if response.needs_human == some true then { s3 with humanHandoff := true } else s3
      { state := { s4 with isLoading := false }, storage := ls2, transportCalls := calls,
        refreshCalls := refresh }
    | Except.error _ =>
      let errorMessage : Message :=
        { role := Role.assistant, content := apology, timestamp := env.repliedAt,
          needsHuman := none }
      let s2 := { s1 with messages := s1.messages ++ [errorMessage] }
      { state := { s2 with isLoading := false }, storage := ls, transportCalls := calls,
        refreshCalls := 0 }

/-- The state rendered while the reply is awaited: `handleSendMessage` up to its `await`
(ChatWidget.jsx lines 90-100). -/
def awaitingReply (env : SendEnv) (s : ChatState) (messageText : String) : ChatState :=
  if s.humanHandoff then s
  else
    { s with
      messages := s.messages ++
        [{ role := Role.user, content := messageText, timestamp := env.sentAt,
           needsHuman := none }],
      isLoading := true }

/-- The function `loadConversationMessages(convId)` (ChatWidget.jsx lines 49-63), given by
what `GET /api/user/conversations/<convId>/messages` settles to for a conversation id and a
token: the messages replace the transcript on a success status; nothing happens else. -/
def loadConversationMessages
    (fetchMessages : String → Option String → FetchResult (List Message))
    (token : Option String) (convId : String) (s : ChatState) : ChatState :=
  match fetchMessages convId token with
  | FetchResult.rejected _ => s
  | FetchResult.response ok json =>
    if ok then
      match json with
      | Except.ok msgs => { s with messages := msgs }
      | Except.error _ => s
    else s

/-- The effect on `propConversationId` (ChatWidget.jsx lines 16-27), with the load it
starts run to completion. -/
def conversationEffect (fetchMessages : String → Option String → FetchResult (List Message))
    (props : ChatProps) (s : ChatState) : ChatState :=
  let s1 := { s with conversationId := props.conversationId }
  if truthyOpt props.conversationId then
    loadConversationMessages fetchMessages props.token (props.conversationId.getD "") s1
  else { s1 with messages := [], humanHandoff := false }

/-- The part of the body of `GET /api/admin/settings` the widget reads; `none` when the
field is absent or `null`. -/
structure Settings where
  welcome_message : Option String
deriving DecidableEq, Repr

/-- The welcome text set when the settings request throws. -/
def defaultWelcome : String := "Hello! How can I help you today?"

/-- The function `fetchWelcomeMessage` (ChatWidget.jsx lines 65-76), given by what the
settings request settles to. An absent `welcome_message` is kept as the empty string: only
the truthiness of the state is ever used, and its text when it is truthy. -/
def fetchWelcomeMessage (result : FetchResult Settings) (s : ChatState) : ChatState :=
  match result with
  | FetchResult.rejected _ => { s with welcomeMessage := defaultWelcome }
  | FetchResult.response ok json =>
    if ok then
      match json with
      | Except.ok settings => { s with welcomeMessage := settings.welcome_message.getD "" }
      | Except.error _ => { s with welcomeMessage := defaultWelcome }
    else s

/-- The effect on `welcomeMessage` and `propConversationId` (ChatWidget.jsx lines 34-43).
`rendered` is the state of the render the effect belongs to (the effect reads `messages`
and `welcomeMessage` from it), `s` the state its update is applied to. -/
def welcomeEffect (props : ChatProps) (rendered : ChatState) (now : String) (s : ChatState) :
    ChatState :=
  if rendered.messages.length == 0 && truthy rendered.welcomeMessage &&
      !(truthyOpt props.conversationId) then
    { s with
      messages :=
        [{ role := Role.assistant, content := rendered.welcomeMessage, timestamp := now,
           needsHuman := none }] }
  else s

/-- The handler `handleHumanConnect` (ChatWidget.jsx lines 82-88), up to its timer. -/
def handleHumanConnect (s : ChatState) : ChatState :=
  { s with showPopup := true }

/-- The `disabled` prop `ChatWidget` passes to `ChatInput` (ChatWidget.jsx line 176). -/
def inputDisabled (s : ChatState) : Bool :=
  s.humanHandoff || s.isLoading

/-- A mounted `ChatWidget`: its props, its state, the storage, and whether the settings
request started on mount is still under way. -/
structure Widget where
  props : ChatProps
  state : ChatState
  storage : Storage
  welcomePending : Bool

/-- The state `ChatWidget` is created with (`useState` initial values). -/
def ChatWidget.initial (props : ChatProps) : ChatState :=
  { messages := [], conversationId := props.conversationId, isLoading := false,
    humanHandoff := false, welcomeMessage := "", showPopup := false }

/-- Mounting the widget: the initial state, then the effects of the first render in their
order (the conversation effect with its load, the start of the settings request, the
welcome effect). `load` is what the request for the messages settles to. -/
def mount (props : ChatProps) (ls : Storage) (load : FetchResult (List Message))
    (now : String) : Widget :=
  let s0 := ChatWidget.initial props
  let s1 := conversationEffect (fun _ _ => load) props s0
  { props := props, state := welcomeEffect props s0 now s1, storage := ls,
    welcomePending := true }

/-- What happens to a mounted widget, with what the backend answers and what the clock
reads: the parent passes another conversation id; the settings request settles; the user
sends a text; the user asks for a human; the popup is closed (by its timer or a click). -/
inductive Event where
  | conversationChange (newId : Option String) (load : FetchResult (List Message))
      (now : String)
  | welcomeLoaded (result : FetchResult Settings) (now : String)
  | send (text : String) (reply : FetchResult ChatResponse) (sentAt repliedAt : String)
  | humanConnect
  | popupClosed

/-- One step of the widget. A conversation id equal to the current prop starts no effect.
On a change, both effects that depend on the prop run on the state of that render: the
conversation effect first, then the welcome effect. When the settings request settles, the
welcome effect runs if `welcomeMessage` has changed. -/
def step (e : Event) (w : Widget) : Widget :=
  match e with
  | Event.conversationChange newId load now =>
    if newId == w.props.conversationId then w
    else
      let props := { w.props with conversationId := newId }
      let s1 := conversationEffect (fun _ _ => load) props w.state
      { w with props := props, state := welcomeEffect props w.state now s1 }
  | Event.welcomeLoaded result now =>
    if w.welcomePending then
      let s1 := fetchWelcomeMessage result w.state
      let s2 := if s1.welcomeMessage != w.state.welcomeMessage then
        welcomeEffect w.props s1 now s1 else s1
      { w with state := s2, welcomePending := false }
    else w
  | Event.send text reply sentAt repliedAt =>
    let out := handleSendMessage w.props
      { fetchChat := fun _ _ _ => reply, sentAt := sentAt, repliedAt := repliedAt }
      w.state w.storage text
    { w with state := out.state, storage := out.storage }
  | Event.humanConnect => { w with state := handleHumanConnect w.state }
  | Event.popupClosed => { w with state := { w.state with showPopup := false } }

/-- The widget after a sequence of events. -/
def run (events : List Event) (w : Widget) : Widget :=
  events.foldl (fun acc e => step e acc) w

/-! ## ChatInput.jsx: the input form -/

/-- The result of a run of `handleSubmit`: the arguments of the calls of `onSend` it made
and the text left in the input. -/
structure SubmitOutcome where
  sent : List String
  message : String
deriving DecidableEq, Repr

/-- The handler `handleSubmit` (ChatInput.jsx lines 7-13) for the typed text `message`. -/
def handleSubmit (disabled : Bool) (message : String) : SubmitOutcome :=
  if !(trim message.data).isEmpty && !disabled then { sent := [message], message := "" }
  else { sent := [], message := message }

/-! ## ChatBubble.jsx: the message formatter -/

/-- Does the text begin with `**`? -/
def startsWithStars : List Char → Bool
  | a :: b :: _ => a == '*' && b == '*'
  | _ => false

/-- The lazy run `.*?` followed by `\*\*`: the shortest run of characters that are not
line terminators and after which `**` stands. Gives the run and what follows the `**`. -/
def lazyUntilStars : List Char → Option (List Char × List Char)
  | [] => none
  | c :: cs =>
    if startsWithStars (c :: cs) then some ([], cs.drop 1)
    else if isLineTerminator c then none
    else (lazyUntilStars cs).map (fun p => (c :: p.1, p.2))

/-- The match of `/^(\d+)\.\s*\*\*(.+?)\*\*\s*(.*)/` on a line: the three groups.
`\d+` and `\s*` are greedy and what follows each cannot start with a character of its class,
so giving characters back never helps; `(.+?)` takes one character and then runs lazily to
the first `**`; `\s*(.*)` cannot fail. -/
def numberedMatch (para : List Char) : Option (List Char × List Char × List Char) :=
  let num := para.takeWhile isDigit
  if num = [] then none
  else
    match para.dropWhile isDigit with
    | [] => none
    | dot :: r1 =>
      if dot == '.' && startsWithStars (r1.dropWhile isWhiteSpace) then
        match (r1.dropWhile isWhiteSpace).drop 2 with
        | [] => none
        | c :: cs =>
          if isLineTerminator c then none
          else
            match lazyUntilStars cs with
            | none => none
            | some (t, r2) =>
              some (num, c :: t,
                (r2.dropWhile isWhiteSpace).takeWhile (fun x => !(isLineTerminator x)))
      else none

/-- The match of `/\*\*.*?\*\*/` at the head of the text: the matched text and the rest. -/
def matchBoldAt (s : List Char) : Option (List Char × List Char) :=
  if startsWithStars s then
    match lazyUntilStars (s.drop 2) with
    | none => none
    | some (inner, rest) => some ('*' :: '*' :: (inner ++ ['*', '*']), rest)
  else none

/-- The loop of `para.split(/(\*\*.*?\*\*)/g)`: at each position try the expression; on a
match close the current piece, emit the captured match and go on after it; otherwise the
character joins the current piece. The first argument bounds the number of steps. -/
def splitBoldAux : Nat → List Char → List (List Char)
  | 0, s => [s]
  | _ + 1, [] => [[]]
  | n + 1, c :: cs =>
    match matchBoldAt (c :: cs) with
    | some (m, rest) => [] :: m :: splitBoldAux n rest
    | none =>
      match splitBoldAux n cs with
      | [] => [[c]]
      | piece :: pieces => (c :: piece) :: pieces

/-- `para.split(/(\*\*.*?\*\*)/g)` -/
def splitBold (para : List Char) : List (List Char) :=
  splitBoldAux para.length para

/-- A piece of a paragraph: text, or text inside `<strong>`. -/
inductive Part where
  | plain (text : String)
  | bold (text : String)
deriving DecidableEq, Repr

/-- A display block: a numbered list item (number, title, text) or a paragraph. -/
inductive DisplayBlock where
  | listItem (number title text : String)
  | paragraph (parts : List Part)
deriving DecidableEq, Repr

/-- What `formatContent` returns: the content itself for a user message, blocks else. -/
inductive Rendered where
  | verbatim (content : String)
  | blocks (bs : List DisplayBlock)
deriving DecidableEq, Repr

/-- The callback of `parts.map` (ChatBubble.jsx lines 37-42). -/
def renderPart (part : List Char) : Part :=
  if startsWith part ['*', '*'] && endsWith part ['*', '*'] then
    Part.bold (String.mk (slice2 part))
  else Part.plain (String.mk part)

/-- The callback of `paragraphs.map` (ChatBubble.jsx lines 19-45). -/
def formatParagraph (para : List Char) : DisplayBlock :=
  match numberedMatch para with
  | some (num, title, text) =>
    DisplayBlock.listItem (String.mk num) (String.mk title) (String.mk text)
  | none => DisplayBlock.paragraph ((splitBold para).map renderPart)

/-- The lines kept by `content.split('\n').filter(p => p.trim())`. -/
def paragraphs (content : List Char) : List (List Char) :=
  (splitOn '\n' content).filter (fun p => !(trim p).isEmpty)

/-- The function `formatContent` (ChatBubble.jsx lines 13-46) for a message of a user
(`isUser = true`) or of the assistant. -/
def formatContent (isUser : Bool) (content : String) : Rendered :=
  if isUser then Rendered.verbatim content
  else Rendered.blocks ((paragraphs content.data).map formatParagraph)

/-! ## Theorems: localStorage -/

theorem getItem_removeItem (ls : Storage) (k k' : String) :
    getItem (removeItem ls k') k = if k = k' then none else getItem ls k := by
  induction ls with
  | nil => simp [getItem, removeItem]
  | cons kv rest ih =>
    simp only [getItem, removeItem] at ih ⊢
    by_cases h1 : kv.1 = k'
    · by_cases h2 : k = k'
      · simp [List.filter_cons, h1, h2] at ih ⊢
      · have h3 : ¬ (k' = k) := fun h => h2 h.symm
        simp [List.filter_cons, List.find?_cons, h1, h2, h3] at ih ⊢
        simpa [h2] using ih
    · by_cases h2 : k = k'
      · have h3 : ¬ (kv.1 = k) := fun h => h1 (h.trans h2)
        simp [List.filter_cons, List.find?_cons, h1, h2, h3] at ih ⊢
      · by_cases h4 : kv.1 = k
        · simp [List.filter_cons, List.find?_cons, h1, h2, h4]
        · simp [List.filter_cons, List.find?_cons, h1, h2, h4] at ih ⊢
          simpa [h2] using ih

theorem parse_some_ne (u : String) (v : Json) (h : JSON.parse u = some v) :
    u ≠ "" ∧ u ≠ "undefined" := by
  constructor
  · intro hu
    subst hu
    have h0 : JSON.parse "" = none := rfl
    rw [h0] at h
    exact Option.noConfusion h
  · intro hu
    subst hu
    have h0 : JSON.parse "undefined" = none := rfl
    rw [h0] at h
    exact Option.noConfusion h

/-! ## Theorems: session restore -/

/-- C1 (as amended): when the persisted token is present and not the empty string, the
persisted user is present and parses as JSON, the restore authenticates with the stored
token and the parsed user, changes nothing else and leaves the storage as it was. -/
theorem restore_valid (s : AppState) (ls : Storage) (t u : String) (v : Json)
    (ht : getItem ls "token" = some t) (hne : t ≠ "")
    (hu : getItem ls "user" = some u) (hv : JSON.parse u = some v) :
    restore s ls =
      ({ s with token := some t, user := v, isAuthenticated := true }, ls) := by
  obtain ⟨h1, h2⟩ := parse_some_ne u v hv
  simp [restore, restoreGuard, ht, hu, truthyOpt, truthy, hne, h1, h2, hv]

/-- Witness of `restore_valid`: a stored token `abc` and a stored user object. -/
theorem restore_valid_witness :
    restore App.initial [("token", "abc"), ("user", "\x7b\"id\":1,\"name\":\"Ann\"\x7d")] =
      ({ App.initial with
          token := some "abc",
          user := Json.obj [("id", Json.num "1"), ("name", Json.str "Ann")],
          isAuthenticated := true },
        [("token", "abc"), ("user", "\x7b\"id\":1,\"name\":\"Ann\"\x7d")]) :=
  restore_valid App.initial [("token", "abc"), ("user", "\x7b\"id\":1,\"name\":\"Ann\"\x7d")]
    "abc" "\x7b\"id\":1,\"name\":\"Ann\"\x7d"
    (Json.obj [("id", Json.num "1"), ("name", Json.str "Ann")])
    (by decide) (by decide) (by decide) rfl

/-- C1 fails as stated: with the token field present but empty and a user field that
parses, the restore does not authenticate. -/
theorem restore_empty_token_not_authenticated :
    getItem [("token", ""), ("user", "\x7b\"id\":1\x7d")] "token" = some "" ∧
    getItem [("token", ""), ("user", "\x7b\"id\":1\x7d")] "user" = some "\x7b\"id\":1\x7d" ∧
    JSON.parse "\x7b\"id\":1\x7d" = some (Json.obj [("id", Json.num "1")]) ∧
    (restore App.initial [("token", ""), ("user", "\x7b\"id\":1\x7d")]).1.isAuthenticated
      = false :=
  ⟨by decide, by decide, rfl, rfl⟩

/-- C2 (as amended): when the token field is missing, or the user field is missing, or the
user field does not parse, the restore on mount leaves the session unauthenticated with no
user; when the guard of the effect passes (both fields non-empty, user not the text
`undefined`) both persisted fields are removed, and when it does not pass the storage is
left as it was. -/
theorem restore_bad (ls : Storage)
    (h : getItem ls "token" = none ∨ getItem ls "user" = none ∨
      ∃ u, getItem ls "user" = some u ∧ JSON.parse u = none) :
    (restore App.initial ls).1.isAuthenticated = false ∧
    (restore App.initial ls).1.user = Json.null ∧
    (restoreGuard ls = true →
      getItem (restore App.initial ls).2 "token" = none ∧
      getItem (restore App.initial ls).2 "user" = none) ∧
    (restoreGuard ls = false → (restore App.initial ls).2 = ls) := by
  by_cases hg : restoreGuard ls = true
  · have hparse : JSON.parse ((getItem ls "user").getD "") = none := by
      rcases h with h | h | ⟨u, hu, hp⟩
      · simp [restoreGuard, h, truthyOpt] at hg
      · simp [restoreGuard, h, truthyOpt] at hg
      · simpa [hu] using hp
    simp [restore, hg, hparse, App.initial, getItem_removeItem]
  · simp only [Bool.not_eq_true] at hg
    simp [restore, hg, App.initial]

/-- Witness of `restore_bad`: a stored token and a user field that is not JSON. -/
theorem restore_bad_witness :
    (restore App.initial [("token", "abc"), ("user", "\x7bid")]).1.isAuthenticated = false ∧
    (restore App.initial [("token", "abc"), ("user", "\x7bid")]).1.user = Json.null ∧
    (restoreGuard [("token", "abc"), ("user", "\x7bid")] = true →
      getItem (restore App.initial [("token", "abc"), ("user", "\x7bid")]).2 "token" = none ∧
      getItem (restore App.initial [("token", "abc"), ("user", "\x7bid")]).2 "user" = none) ∧
    (restoreGuard [("token", "abc"), ("user", "\x7bid")] = false →
      (restore App.initial [("token", "abc"), ("user", "\x7bid")]).2 =
        [("token", "abc"), ("user", "\x7bid")]) :=
  restore_bad [("token", "abc"), ("user", "\x7bid")]
    (Or.inr (Or.inr ⟨"\x7bid", by decide, rfl⟩))

/-- C2 fails as stated: with the token field missing and a user field present, the restore
leaves the user field in the storage. -/
theorem restore_missing_token_keeps_user :
    getItem [("user", "\x7b\"id\":1\x7d")] "token" = none ∧
    getItem (restore App.initial [("user", "\x7b\"id\":1\x7d")]).2 "user" =
      some "\x7b\"id\":1\x7d" :=
  ⟨by decide, by decide⟩

/-! ## Theorems: sending a message -/

theorem getItem_setItem_self (ls : Storage) (k v : String) :
    getItem (setItem ls k v) k = some v := by
  unfold setItem
  by_cases h : (ls.any (fun kv => kv.1 == k)) = true
  · rw [if_pos h]
    induction ls with
    | nil => simp at h
    | cons kv rest ih =>
      by_cases h1 : kv.1 = k
      · simp [getItem, List.find?_cons, h1]
      · have h2 : (rest.any (fun kv => kv.1 == k)) = true := by
          simpa [List.any_cons, h1] using h
        have ih2 := ih h2
        simp only [getItem] at ih2 ⊢
        simpa [List.find?_cons, h1] using ih2
  · rw [if_neg h]
    have h3 : ∀ kv ∈ ls, ¬ (kv.1 = k) := by
      intro kv hkv hk
      apply h
      simp only [List.any_eq_true]
      exact ⟨kv, hkv, by simp [hk]⟩
    have h4 : ls.find? (fun kv => kv.1 == k) = none := by
      simp only [List.find?_eq_none]
      intro kv hkv
      simpa using h3 kv hkv
    simp [getItem, List.find?_append, h4]

/-- C3: with `humanHandoff` true, `handleSendMessage` makes no transport call and leaves
the messages, the conversation id, `isLoading` and `humanHandoff` (the whole state), the
storage and the refresh callback untouched, whatever the text. -/
theorem send_rejected_in_handoff (props : ChatProps) (env : SendEnv) (s : ChatState)
    (ls : Storage) (text : String) (h : s.humanHandoff = true) :
    (handleSendMessage props env s ls text).transportCalls = [] ∧
    (handleSendMessage props env s ls text).state.messages = s.messages ∧
    (handleSendMessage props env s ls text).state.conversationId = s.conversationId ∧
    (handleSendMessage props env s ls text).state.isLoading = s.isLoading ∧
    (handleSendMessage props env s ls text).state.humanHandoff = s.humanHandoff ∧
    (handleSendMessage props env s ls text).state = s ∧
    (handleSendMessage props env s ls text).storage = ls ∧
    (handleSendMessage props env s ls text).refreshCalls = 0 := by
  simp [handleSendMessage, h]

/-- Witness of `send_rejected_in_handoff`: a handed-off chat and a transport that would
answer. -/
theorem send_rejected_in_handoff_witness :
    (handleSendMessage
      { token := some "abc", conversationId := some "c1", onConversationCreated := true }
      { fetchChat := fun _ _ _ => FetchResult.response true
          (Except.ok { conversation_id := "c1", reply := "hi", needs_human := none }),
        sentAt := "t1", repliedAt := "t2" }
      { messages := [], conversationId := some "c1", isLoading := false,
        humanHandoff := true, welcomeMessage := "", showPopup := false }
      [] "hello").transportCalls = [] :=
  (send_rejected_in_handoff _ _ _ _ _ (by rfl)).1

/-- C4: with `humanHandoff` false and a transport that fails, `handleSendMessage` calls
the transport once and leaves the old transcript followed by the user message and one
assistant message carrying the apology; `humanHandoff` and the conversation id are
unchanged, `isLoading` is false, the storage is unchanged and no refresh is requested. -/
theorem send_failed (props : ChatProps) (env : SendEnv) (s : ChatState) (ls : Storage)
    (text err : String) (hh : s.humanHandoff = false)
    (hfail : sendMessage env.fetchChat text s.conversationId props.token = Except.error err) :
    (handleSendMessage props env s ls text).state.messages =
      s.messages ++
        [{ role := Role.user, content := text, timestamp := env.sentAt, needsHuman := none },
         { role := Role.assistant, content := "Sorry, an error occurred. Please try again.",
           timestamp := env.repliedAt, needsHuman := none }] ∧
    (handleSendMessage props env s ls text).state.humanHandoff = s.humanHandoff ∧
    (handleSendMessage props env s ls text).state.conversationId = s.conversationId ∧
    (handleSendMessage props env s ls text).state.isLoading = false ∧
    (handleSendMessage props env s ls text).storage = ls ∧
    (handleSendMessage props env s ls text).refreshCalls = 0 ∧
    (handleSendMessage props env s ls text).transportCalls =
      [(text, s.conversationId, props.token)] := by
  simp [handleSendMessage, hh, hfail, apology]

/-- Witness of `send_failed`: a fresh chat and a transport that always fails. -/
theorem send_failed_witness :
    (handleSendMessage
      { token := some "abc", conversationId := none, onConversationCreated := true }
      { fetchChat := fun _ _ _ => FetchResult.response false (Except.error "no body"),
        sentAt := "t1", repliedAt := "t2" }
      { messages := [], conversationId := none, isLoading := false,
        humanHandoff := false, welcomeMessage := "", showPopup := false }
      [] "hello").state.messages =
      [{ role := Role.user, content := "hello", timestamp := "t1", needsHuman := none },
       { role := Role.assistant, content := "Sorry, an error occurred. Please try again.",
         timestamp := "t2", needsHuman := none }] :=
  (send_failed _ _ _ _ "hello" "Failed to send message" (by rfl) (by rfl)).1

/-- C5 (as amended): on every successful send, whether or not a refresh callback is
supplied: when the controller has no conversation id it takes the id of the response and
stores it under `conversationId`, and the callback is called exactly once when one is
supplied (not at all when none is); when it already has a non-empty conversation id, the
id and the storage are unchanged and the callback is not called. -/
theorem send_adopts_conversation_id (props : ChatProps) (env : SendEnv) (s : ChatState)
    (ls : Storage) (text : String) (r : ChatResponse)
    (hh : s.humanHandoff = false)
    (hok : sendMessage env.fetchChat text s.conversationId props.token = Except.ok r) :
    (s.conversationId = none →
      (handleSendMessage props env s ls text).state.conversationId = some r.conversation_id ∧
      (handleSendMessage props env s ls text).storage =
        setItem ls "conversationId" r.conversation_id ∧
      getItem (handleSendMessage props env s ls text).storage "conversationId" =
        some r.conversation_id ∧
      (props.onConversationCreated = true →
        (handleSendMessage props env s ls text).refreshCalls = 1) ∧
      (props.onConversationCreated = false →
        (handleSendMessage props env s ls text).refreshCalls = 0)) ∧
    (∀ id : String, s.conversationId = some id → id ≠ "" →
      (handleSendMessage props env s ls text).state.conversationId = some id ∧
      (handleSendMessage props env s ls text).storage = ls ∧
      (handleSendMessage props env s ls text).refreshCalls = 0) := by
  constructor
  · intro hnone
    have hok2 : sendMessage env.fetchChat text none props.token = Except.ok r := by
      rw [← hnone]; exact hok
    by_cases hn : r.needs_human = some true <;>
    cases hcb : props.onConversationCreated <;>
      simp [handleSendMessage, hh, hcb, hok2, hnone, truthyOpt, hn, getItem_setItem_self]
  · intro id hsome hne
    have hok2 : sendMessage env.fetchChat text (some id) props.token = Except.ok r := by
      rw [← hsome]; exact hok
    by_cases hn : r.needs_human = some true <;>
      simp [handleSendMessage, hh, hok2, hsome, truthyOpt, truthy, hne, hn]

/-- Witness of `send_adopts_conversation_id`: a fresh chat, mounted without a refresh
callback, whose first message is answered with the conversation id `c1`. -/
theorem send_adopts_conversation_id_witness :
    (handleSendMessage
      { token := some "abc", conversationId := none, onConversationCreated := false }
      { fetchChat := fun _ _ _ => FetchResult.response true
          (Except.ok { conversation_id := "c1", reply := "hi", needs_human := none }),
        sentAt := "t1", repliedAt := "t2" }
      { messages := [], conversationId := none, isLoading := false,
        humanHandoff := false, welcomeMessage := "", showPopup := false }
      [] "hello").state.conversationId = some "c1" ∧
    (handleSendMessage
      { token := some "abc", conversationId := none, onConversationCreated := false }
      { fetchChat := fun _ _ _ => FetchResult.response true
          (Except.ok { conversation_id := "c1", reply := "hi", needs_human := none }),
        sentAt := "t1", repliedAt := "t2" }
      { messages := [], conversationId := none, isLoading := false,
        humanHandoff := false, welcomeMessage := "", showPopup := false }
      [] "hello").storage = setItem [] "conversationId" "c1" :=
  ⟨((send_adopts_conversation_id _ _ _ _ "hello"
      { conversation_id := "c1", reply := "hi", needs_human := none }
      (by rfl) (by rfl)).1 (by rfl)).1,
   ((send_adopts_conversation_id _ _ _ _ "hello"
      { conversation_id := "c1", reply := "hi", needs_human := none }
      (by rfl) (by rfl)).1 (by rfl)).2.1⟩

/-- C5 fails as stated, twice. A widget mounted without `onConversationCreated` adopts and
stores the id of the first reply but calls no callback: the guard `if
(onConversationCreated)` skips the call. And a controller whose conversation id is set to
the empty string takes over the id of the response, stores it and calls the callback:
`!conversationId` holds for the empty string. -/
theorem send_adoption_not_as_stated :
    ((handleSendMessage
      { token := some "abc", conversationId := none, onConversationCreated := false }
      { fetchChat := fun _ _ _ => FetchResult.response true
          (Except.ok { conversation_id := "c1", reply := "hi", needs_human := none }),
        sentAt := "t1", repliedAt := "t2" }
      { messages := [], conversationId := none, isLoading := false,
        humanHandoff := false, welcomeMessage := "", showPopup := false }
      [] "hello").state.conversationId = some "c1" ∧
    (handleSendMessage
      { token := some "abc", conversationId := none, onConversationCreated := false }
      { fetchChat := fun _ _ _ => FetchResult.response true
          (Except.ok { conversation_id := "c1", reply := "hi", needs_human := none }),
        sentAt := "t1", repliedAt := "t2" }
      { messages := [], conversationId := none, isLoading := false,
        humanHandoff := false, welcomeMessage := "", showPopup := false }
      [] "hello").refreshCalls = 0) ∧
    ((handleSendMessage
      { token := some "abc", conversationId := some "", onConversationCreated := true }
      { fetchChat := fun _ _ _ => FetchResult.response true
          (Except.ok { conversation_id := "c1", reply := "hi", needs_human := none }),
        sentAt := "t1", repliedAt := "t2" }
      { messages := [], conversationId := some "", isLoading := false,
        humanHandoff := false, welcomeMessage := "", showPopup := false }
      [] "hello").state.conversationId = some "c1" ∧
    (handleSendMessage
      { token := some "abc", conversationId := some "", onConversationCreated := true }
      { fetchChat := fun _ _ _ => FetchResult.response true
          (Except.ok { conversation_id := "c1", reply := "hi", needs_human := none }),
        sentAt := "t1", repliedAt := "t2" }
      { messages := [], conversationId := some "", isLoading := false,
        humanHandoff := false, welcomeMessage := "", showPopup := false }
      [] "hello").storage = [("conversationId", "c1")] ∧
    (handleSendMessage
      { token := some "abc", conversationId := some "", onConversationCreated := true }
      { fetchChat := fun _ _ _ => FetchResult.response true
          (Except.ok { conversation_id := "c1", reply := "hi", needs_human := none }),
        sentAt := "t1", repliedAt := "t2" }
      { messages := [], conversationId := some "", isLoading := false,
        humanHandoff := false, welcomeMessage := "", showPopup := false }
      [] "hello").refreshCalls = 1) :=
  ⟨⟨by decide, by decide⟩, ⟨by decide, by decide, by decide⟩⟩

/-! ## Theorems: splitting into lines -/

theorem splitOn_ne_nil (sep : Char) (s : List Char) : splitOn sep s ≠ [] := by
  cases s with
  | nil => simp [splitOn]
  | cons c cs =>
    simp only [splitOn]
    split
    · simp
    · split <;> simp

theorem intercalate_cons_cons (sep a b : List Char) (t : List (List Char)) :
    List.intercalate sep (a :: b :: t) = a ++ sep ++ List.intercalate sep (b :: t) := by
  simp [List.intercalate, List.intersperse]

theorem intercalate_splitOn (sep : Char) (s : List Char) :
    List.intercalate [sep] (splitOn sep s) = s := by
  induction s with
  | nil => simp [splitOn, List.intercalate]
  | cons c cs ih =>
    have hne := splitOn_ne_nil sep cs
    cases hs : splitOn sep cs with
    | nil => exact absurd hs hne
    | cons seg segs =>
      rw [hs] at ih
      simp only [splitOn, hs]
      by_cases hc : c = sep
      · rw [if_pos hc, intercalate_cons_cons, ih, hc]
        simp
      · rw [if_neg hc]
        cases segs with
        | nil =>
          simp [List.intercalate, List.intersperse] at ih ⊢
          exact ih
        | cons seg2 segs2 =>
          rw [intercalate_cons_cons] at ih ⊢
          rw [← ih]
          simp

theorem not_mem_of_mem_splitOn (sep : Char) (s : List Char) :
    ∀ seg ∈ splitOn sep s, sep ∉ seg := by
  induction s with
  | nil => simp [splitOn]
  | cons c cs ih =>
    intro seg hseg
    simp only [splitOn] at hseg
    by_cases hc : c = sep
    · rw [if_pos hc] at hseg
      rcases List.mem_cons.mp hseg with h | h
      · simp [h]
      · exact ih seg h
    · rw [if_neg hc] at hseg
      cases hs : splitOn sep cs with
      | nil => exact absurd hs (splitOn_ne_nil sep cs)
      | cons seg1 segs =>
        rw [hs] at hseg ih
        rcases List.mem_cons.mp hseg with h | h
        · subst h
          intro hmem
          rcases List.mem_cons.mp hmem with h2 | h2
          · exact hc h2.symm
          · exact ih seg1 (List.mem_cons_self _ _) h2
        · exact ih seg (List.mem_cons_of_mem _ h)

theorem splitOn_of_not_mem (sep : Char) (s : List Char) (h : sep ∉ s) :
    splitOn sep s = [s] := by
  induction s with
  | nil => simp [splitOn]
  | cons c cs ih =>
    have hc : ¬ c = sep := fun e => h (by simp [e])
    have hcs : sep ∉ cs := fun e => h (List.mem_cons_of_mem _ e)
    simp [splitOn, hc, ih hcs]

theorem trim_isEmpty (s : List Char) :
    (trim s).isEmpty = !(s.any (fun c => !isWhiteSpace c)) := by
  have key : (trim s = []) ↔ ∀ c ∈ s, isWhiteSpace c = true := by
    unfold trim
    rw [List.reverse_eq_nil_iff, List.dropWhile_eq_nil_iff]
    constructor
    · intro h
      have h2 : s.dropWhile isWhiteSpace = [] := by
        by_contra hne
        have h3 := List.head_dropWhile_not isWhiteSpace s hne
        have h4 := h _ (List.mem_reverse.mpr (List.head_mem hne))
        rw [h4] at h3
        exact absurd h3 (by simp)
      exact List.dropWhile_eq_nil_iff.mp h2
    · intro h c hc
      have hc2 := List.mem_reverse.mp hc
      exact h c ((List.dropWhile_sublist _).subset hc2)
  by_cases hall : ∀ c ∈ s, isWhiteSpace c = true
  · have h1 := key.mpr hall
    rw [h1]
    simp only [List.isEmpty_nil]
    symm
    simp only [Bool.not_eq_true', List.any_eq_false]
    intro c hc
    simp [hall c hc]
  · have h1 : trim s ≠ [] := fun e => hall (key.mp e)
    have h2 : (trim s).isEmpty = false := by
      cases ht : trim s with
      | nil => exact absurd ht h1
      | cons a b => rfl
    rw [h2]
    symm
    simp only [Bool.not_eq_false', List.any_eq_true]
    push_neg at hall
    obtain ⟨c, hc, hw⟩ := hall
    exact ⟨c, hc, by simpa using hw⟩

theorem paragraphs_eq (s : List Char) :
    paragraphs s = (splitOn '\n' s).filter (fun seg => seg.any (fun c => !isWhiteSpace c)) := by
  unfold paragraphs
  congr 1
  funext seg
  rw [trim_isEmpty]
  simp

theorem paragraphs_single (s : List Char) (hnl : '\n' ∉ s)
    (hnb : ∃ c ∈ s, isWhiteSpace c = false) : paragraphs s = [s] := by
  rw [paragraphs_eq, splitOn_of_not_mem '\n' s hnl]
  obtain ⟨c, hc, hw⟩ := hnb
  have : (s.any (fun c => !isWhiteSpace c)) = true := by
    simp only [List.any_eq_true]
    exact ⟨c, hc, by simp [hw]⟩
  simp [List.filter_cons, this]

theorem ne_newline_of_not_lineTerminator (c : Char) (h : isLineTerminator c = false) :
    c ≠ '\n' := by
  intro e
  rw [e] at h
  exact absurd h (by decide)

theorem takeWhile_not_lineTerminator (r : List Char)
    (h : ∀ c ∈ r, isLineTerminator c = false) :
    r.takeWhile (fun x => !(isLineTerminator x)) = r := by
  rw [List.takeWhile_eq_self_iff]
  intro x hx
  simp [h x hx]

theorem dropWhile_whiteSpace_of_head (r : List Char)
    (h : ∀ c, r.head? = some c → isWhiteSpace c = false) :
    r.dropWhile isWhiteSpace = r := by
  cases r with
  | nil => rfl
  | cons x r =>
    have hx : isWhiteSpace x = false := h x rfl
    simp [List.dropWhile_cons, hx]

/-! ## Theorems: the two regular expressions -/

theorem splitOn_head_and_mem (sep : Char) (s : List Char) :
    (∀ seg segs, splitOn sep s = seg :: segs → seg <+: s) ∧
    (∀ seg ∈ splitOn sep s, seg <:+: s) := by
  induction s with
  | nil =>
    constructor
    · intro seg segs h
      simp [splitOn] at h
      simp [h.1]
    · intro seg h
      simp [splitOn] at h
      simp [h]
  | cons c cs ih =>
    obtain ⟨ihp, ihm⟩ := ih
    cases hs : splitOn sep cs with
    | nil => exact absurd hs (splitOn_ne_nil sep cs)
    | cons seg1 segs1 =>
      have hp1 : seg1 <+: cs := ihp seg1 segs1 hs
      rw [hs] at ihm
      by_cases hc : c = sep
      · simp only [splitOn, if_pos hc, hs]
        constructor
        · intro seg segs h
          simp only [List.cons.injEq] at h
          rw [← h.1]
          exact List.nil_prefix
        · intro seg h
          rcases List.mem_cons.mp h with h | h
          · rw [h]; exact List.nil_infix
          · exact List.infix_cons (ihm seg h)
      · simp only [splitOn, if_neg hc, hs]
        constructor
        · intro seg segs h
          simp only [List.cons.injEq] at h
          rw [← h.1]
          exact (List.prefix_cons_inj c).mpr hp1
        · intro seg h
          rcases List.mem_cons.mp h with h | h
          · rw [h]
            exact ((List.prefix_cons_inj c).mpr hp1).isInfix
          · exact List.infix_cons (ihm seg (List.mem_cons_of_mem _ h))

theorem startsWithStars_eq_true (t : List Char) (h : startsWithStars t = true) :
    ∃ r, t = '*' :: '*' :: r := by
  match t, h with
  | a :: b :: r, h =>
    simp only [startsWithStars, Bool.and_eq_true, beq_iff_eq] at h
    exact ⟨r, by rw [h.1, h.2]⟩

theorem startsWithStars_cons_of_ne (x : Char) (l : List Char) (hx : x ≠ '*') :
    startsWithStars (x :: l) = false := by
  cases l with
  | nil => rfl
  | cons y l => simp [startsWithStars, hx]

/-- No suffix of the text begins with `**`. -/
theorem noStars_of_not_occurring (s : List Char) (h : ¬ (['*', '*'] <:+: s)) :
    ∀ t, t <:+ s → startsWithStars t = false := by
  intro t ht
  by_contra hst
  simp only [Bool.not_eq_false] at hst
  obtain ⟨r, hr⟩ := startsWithStars_eq_true t hst
  apply h
  have hp : ['*', '*'] <+: t := ⟨r, by rw [hr]; rfl⟩
  exact hp.isInfix.trans ht.isInfix

theorem noStars_of_not_mem (s : List Char) (h : '*' ∉ s) :
    ∀ t, t <:+ s → startsWithStars t = false := by
  apply noStars_of_not_occurring
  intro hin
  apply h
  exact hin.subset (by simp)

theorem numberedMatch_eq_none (s : List Char)
    (h : ∀ t, t <:+ s → startsWithStars t = false) : numberedMatch s = none := by
  unfold numberedMatch
  by_cases hnum : s.takeWhile isDigit = []
  · simp [hnum]
  · simp only [hnum, if_false]
    cases hd : s.dropWhile isDigit with
    | nil => rfl
    | cons dot r1 =>
      have h1 : (r1.dropWhile isWhiteSpace) <:+ s := by
        have a1 : (r1.dropWhile isWhiteSpace) <:+ r1 := List.dropWhile_suffix _
        have a2 : r1 <:+ dot :: r1 := List.suffix_cons _ _
        have a3 : dot :: r1 <:+ s := by rw [← hd]; exact List.dropWhile_suffix _
        exact (a1.trans a2).trans a3
      simp [h _ h1]

theorem splitBoldAux_of_noStars (n : Nat) (s : List Char)
    (h : ∀ t, t <:+ s → startsWithStars t = false) : splitBoldAux n s = [s] := by
  induction n generalizing s with
  | zero => rfl
  | succ n ih =>
    cases s with
    | nil => rfl
    | cons c cs =>
      have h0 : startsWithStars (c :: cs) = false := h _ (List.suffix_refl _)
      have h1 : matchBoldAt (c :: cs) = none := by simp [matchBoldAt, h0]
      have h2 : splitBoldAux n cs = [cs] :=
        ih cs (fun t ht => h t (ht.trans (List.suffix_cons _ _)))
      simp [splitBoldAux, h1, h2]

theorem startsWith_stars (s : List Char) : startsWith s ['*', '*'] = startsWithStars s := by
  match s with
  | [] => rfl
  | [a] => simp [startsWith, startsWithStars, List.isPrefixOf]
  | a :: b :: r =>
    by_cases h1 : a = '*' <;> by_cases h2 : b = '*'
    · simp [startsWith, startsWithStars, List.isPrefixOf, h1, h2]
    · have h2' : ¬ ('*' = b) := fun e => h2 e.symm
      simp [startsWith, startsWithStars, List.isPrefixOf, h1, h2, h2']
    · have h1' : ¬ ('*' = a) := fun e => h1 e.symm
      simp [startsWith, startsWithStars, List.isPrefixOf, h1, h2, h1']
    · have e1 : ('*' == a) = false := by simpa using fun e => h1 e.symm
      have e2 : (a == '*') = false := by simpa using h1
      simp only [startsWith, startsWithStars, List.isPrefixOf, e1, e2, Bool.false_and]

theorem renderPart_of_not_startsWithStars (s : List Char) (h : startsWithStars s = false) :
    renderPart s = Part.plain (String.mk s) := by
  simp [renderPart, startsWith_stars, h]

theorem formatParagraph_of_noStars (s : List Char)
    (h : ∀ t, t <:+ s → startsWithStars t = false) :
    formatParagraph s = DisplayBlock.paragraph [Part.plain (String.mk s)] := by
  have h0 : startsWithStars s = false := h _ (List.suffix_refl _)
  simp [formatParagraph, numberedMatch_eq_none s h, splitBold, splitBoldAux_of_noStars _ s h,
    renderPart_of_not_startsWithStars s h0]

theorem lazyUntilStars_append (t r : List Char) (hs : '*' ∉ t)
    (hl : ∀ c ∈ t, isLineTerminator c = false) :
    lazyUntilStars (t ++ '*' :: '*' :: r) = some (t, r) := by
  induction t with
  | nil => simp [lazyUntilStars, startsWithStars]
  | cons x t ih =>
    have hx : x ≠ '*' := fun e => hs (by simp [e])
    have h1 : startsWithStars (x :: (t ++ '*' :: '*' :: r)) = false :=
      startsWithStars_cons_of_ne _ _ hx
    have h2 : isLineTerminator x = false := hl x (List.mem_cons_self _ _)
    have h3 := ih (fun e => hs (List.mem_cons_of_mem _ e))
      (fun c hc => hl c (List.mem_cons_of_mem _ hc))
    rw [List.cons_append, lazyUntilStars, h1, h3]
    simp [h2]

theorem splitBoldAux_plain_then_match (a : List Char) (ha : '*' ∉ a) (k : Nat) (X m rest : List Char)
    (hm : matchBoldAt ('*' :: '*' :: X) = some (m, rest)) :
    splitBoldAux (a.length + 1 + k) (a ++ '*' :: '*' :: X) = a :: m :: splitBoldAux k rest := by
  induction a with
  | nil =>
    have e : ([] : List Char).length + 1 + k = k + 1 := by simp [Nat.add_comm]
    rw [e]
    simp [splitBoldAux, hm]
  | cons x a ih =>
    have hx : x ≠ '*' := fun e => ha (by simp [e])
    have h1 : startsWithStars (x :: (a ++ '*' :: '*' :: X)) = false :=
      startsWithStars_cons_of_ne _ _ hx
    have h2 : matchBoldAt (x :: (a ++ '*' :: '*' :: X)) = none := by simp [matchBoldAt, h1]
    have h3 := ih (fun e => ha (List.mem_cons_of_mem _ e))
    have e : (x :: a).length + 1 + k = (a.length + 1 + k) + 1 := by simp; omega
    rw [e]
    simp [splitBoldAux, h2, h3]

theorem lazyUntilStars_length (s t r : List Char) (h : lazyUntilStars s = some (t, r)) :
    r.length + 2 ≤ s.length := by
  induction s generalizing t with
  | nil => simp [lazyUntilStars] at h
  | cons c cs ih =>
    rw [lazyUntilStars] at h
    by_cases h1 : startsWithStars (c :: cs) = true
    · rw [if_pos h1] at h
      obtain ⟨r0, hr0⟩ := startsWithStars_eq_true _ h1
      simp only [List.cons.injEq] at hr0
      simp only [Option.some.injEq, Prod.mk.injEq] at h
      rw [← h.2, hr0.2]
      simp
    · rw [if_neg h1] at h
      by_cases h2 : isLineTerminator c = true
      · rw [if_pos h2] at h
        exact absurd h (by simp)
      · rw [if_neg h2] at h
        cases hl : lazyUntilStars cs with
        | none => rw [hl] at h; simp at h
        | some p =>
          rw [hl] at h
          simp only [Option.map_some', Option.some.injEq, Prod.mk.injEq] at h
          have := ih p.1 (by rw [hl, ← h.2])
          simp only [List.length_cons]
          omega

theorem matchBoldAt_length (s m rest : List Char) (h : matchBoldAt s = some (m, rest)) :
    rest.length < s.length := by
  unfold matchBoldAt at h
  by_cases h1 : startsWithStars s = true
  · rw [if_pos h1] at h
    cases hl : lazyUntilStars (s.drop 2) with
    | none => rw [hl] at h; simp at h
    | some p =>
      rw [hl] at h
      simp only [Option.some.injEq, Prod.mk.injEq] at h
      have h2 := lazyUntilStars_length (s.drop 2) p.1 p.2 (by rw [hl])
      rw [h.2] at h2
      simp only [List.length_drop] at h2
      omega
  · rw [if_neg h1] at h
    exact absurd h (by simp)

/-- The bound of `splitBoldAux` is never exhausted from the length of the text on: any two
bounds that are at least the length give the same pieces. -/
theorem splitBoldAux_fuel (n m : Nat) (s : List Char) (hn : s.length ≤ n) (hm : s.length ≤ m) :
    splitBoldAux n s = splitBoldAux m s := by
  induction n generalizing m s with
  | zero =>
    have hs : s = [] := List.eq_nil_of_length_eq_zero (Nat.le_zero.mp hn)
    subst hs
    cases m <;> rfl
  | succ n ih =>
    cases s with
    | nil => cases m <;> rfl
    | cons c cs =>
      cases m with
      | zero => simp at hm
      | succ m =>
        simp only [List.length_cons, Nat.add_le_add_iff_right] at hn hm
        simp only [splitBoldAux]
        cases hmt : matchBoldAt (c :: cs) with
        | none =>
          simp only []
          rw [ih m cs hn hm]
        | some p =>
          have hl := matchBoldAt_length (c :: cs) p.1 p.2 (by rw [hmt])
          simp only [List.length_cons] at hl
          simp only []
          rw [ih m p.2 (by omega) (by omega)]

theorem isDigit_not_whiteSpace (c : Char) (h : isDigit c = true) : isWhiteSpace c = false := by
  simp only [isDigit, Bool.and_eq_true, decide_eq_true_eq] at h
  simp only [isWhiteSpace, Bool.or_eq_false_iff, beq_eq_false_iff_ne, ne_eq,
    Bool.and_eq_false_imp, decide_eq_true_eq, decide_eq_false_iff_not]
  omega

theorem isDigit_ne_newline (c : Char) (h : isDigit c = true) : c ≠ '\n' := by
  intro e
  rw [e] at h
  exact absurd h (by decide)

theorem numberedMatch_list_item (d t r : List Char)
    (hd : d ≠ []) (hdig : ∀ c ∈ d, isDigit c = true)
    (ht : t ≠ []) (hts : '*' ∉ t) (htl : ∀ c ∈ t, isLineTerminator c = false)
    (hrl : ∀ c ∈ r, isLineTerminator c = false)
    (hrw : ∀ c, r.head? = some c → isWhiteSpace c = false) :
    numberedMatch (d ++ '.' :: ' ' :: '*' :: '*' :: (t ++ '*' :: '*' :: ' ' :: r)) =
      some (d, t, r) := by
  cases t with
  | nil => exact absurd rfl ht
  | cons c cs =>
    have hdot : isDigit '.' = false := by decide
    have h1 : (d ++ '.' :: ' ' :: '*' :: '*' :: (c :: cs ++ '*' :: '*' :: ' ' :: r)).takeWhile
        isDigit = d := by
      rw [List.takeWhile_append_of_pos hdig]
      simp [List.takeWhile_cons, hdot]
    have h2 : (d ++ '.' :: ' ' :: '*' :: '*' :: (c :: cs ++ '*' :: '*' :: ' ' :: r)).dropWhile
        isDigit = '.' :: ' ' :: '*' :: '*' :: (c :: cs ++ '*' :: '*' :: ' ' :: r) := by
      rw [List.dropWhile_append_of_pos hdig]
      simp [List.dropWhile_cons, hdot]
    have hsp : isWhiteSpace ' ' = true := by decide
    have hst : isWhiteSpace '*' = false := by decide
    have h3 : (' ' :: '*' :: '*' :: (c :: cs ++ '*' :: '*' :: ' ' :: r)).dropWhile isWhiteSpace
        = '*' :: '*' :: (c :: cs ++ '*' :: '*' :: ' ' :: r) := by
      simp [List.dropWhile_cons, hsp, hst]
    have h4 : isLineTerminator c = false := htl c (List.mem_cons_self _ _)
    have h5 : lazyUntilStars (cs ++ '*' :: '*' :: ' ' :: r) = some (cs, ' ' :: r) :=
      lazyUntilStars_append cs (' ' :: r) (fun e => hts (List.mem_cons_of_mem _ e))
        (fun x hx => htl x (List.mem_cons_of_mem _ hx))
    have h6 : (' ' :: r).dropWhile isWhiteSpace = r := by
      rw [List.dropWhile_cons_of_pos hsp]
      exact dropWhile_whiteSpace_of_head r hrw
    unfold numberedMatch
    rw [h1, h2]
    simp only [hd, if_false, h3]
    simp [startsWithStars, h4, h5, h6, takeWhile_not_lineTerminator r hrl]

theorem renderPart_bold (b : List Char) :
    renderPart ('*' :: '*' :: (b ++ ['*', '*'])) = Part.bold (String.mk b) := by
  have h1 : startsWith ('*' :: '*' :: (b ++ ['*', '*'])) ['*', '*'] = true := by
    rw [startsWith_stars]; rfl
  have h2 : endsWith ('*' :: '*' :: (b ++ ['*', '*'])) ['*', '*'] = true := by
    simp only [endsWith, List.isSuffixOf_iff_suffix]
    exact ⟨'*' :: '*' :: b, by simp⟩
  have h3 : slice2 ('*' :: '*' :: (b ++ ['*', '*'])) = b := by
    simp [slice2]
  simp [renderPart, h1, h2, h3]

theorem splitBold_bold_span (a b c : List Char) (ha : '*' ∉ a) (hb : '*' ∉ b) (hc : '*' ∉ c)
    (hbl : ∀ x ∈ b, isLineTerminator x = false) :
    splitBold (a ++ '*' :: '*' :: (b ++ '*' :: '*' :: c)) =
      [a, '*' :: '*' :: (b ++ ['*', '*']), c] := by
  have hm : matchBoldAt ('*' :: '*' :: (b ++ '*' :: '*' :: c)) =
      some ('*' :: '*' :: (b ++ ['*', '*']), c) := by
    simp [matchBoldAt, startsWithStars, lazyUntilStars_append b c hb hbl]
  have hlen : (a ++ '*' :: '*' :: (b ++ '*' :: '*' :: c)).length =
      a.length + 1 + (b.length + c.length + 3) := by
    simp only [List.length_append, List.length_cons]
    omega
  unfold splitBold
  rw [hlen, splitBoldAux_plain_then_match a ha _ _ _ _ hm,
    splitBoldAux_of_noStars _ c (noStars_of_not_mem c hc)]

/-! ## Theorems: the message formatter -/

/-- C6 (as amended): a line made of a non-empty run of ASCII digits, `. **`, a non-empty
title without `*` and without line terminator, `** `, and a rest without line terminator
that does not begin with a whitespace character, is formatted as exactly one list item
with that number, title and text. -/
theorem format_list_item (digits title rest : String)
    (hd : digits.data ≠ []) (hdig : ∀ c ∈ digits.data, isDigit c = true)
    (ht : title.data ≠ []) (hts : '*' ∉ title.data)
    (htl : ∀ c ∈ title.data, isLineTerminator c = false)
    (hrl : ∀ c ∈ rest.data, isLineTerminator c = false)
    (hrw : ∀ c, rest.data.head? = some c → isWhiteSpace c = false) :
    formatContent false (digits ++ ". **" ++ title ++ "** " ++ rest) =
      Rendered.blocks [DisplayBlock.listItem digits title rest] := by
  have hdata : (digits ++ ". **" ++ title ++ "** " ++ rest).data =
      digits.data ++ '.' :: ' ' :: '*' :: '*' :: (title.data ++ '*' :: '*' :: ' ' :: rest.data) := by
    simp [String.data_append]
  have hnl : '\n' ∉
      digits.data ++ '.' :: ' ' :: '*' :: '*' :: (title.data ++ '*' :: '*' :: ' ' :: rest.data) := by
    intro hmem
    simp only [List.mem_append, List.mem_cons] at hmem
    rcases hmem with h | h | h | h | h | h | h | h | h | h
    · exact isDigit_ne_newline _ (hdig _ h) rfl
    · exact absurd h (by decide)
    · exact absurd h (by decide)
    · exact absurd h (by decide)
    · exact absurd h (by decide)
    · exact ne_newline_of_not_lineTerminator _ (htl _ h) rfl
    · exact absurd h (by decide)
    · exact absurd h (by decide)
    · exact absurd h (by decide)
    · exact ne_newline_of_not_lineTerminator _ (hrl _ h) rfl
  have hnb : ∃ c ∈
      digits.data ++ '.' :: ' ' :: '*' :: '*' :: (title.data ++ '*' :: '*' :: ' ' :: rest.data),
      isWhiteSpace c = false := by
    cases hdd : digits.data with
    | nil => exact absurd hdd hd
    | cons x xs =>
      refine ⟨x, by simp, isDigit_not_whiteSpace x (hdig x ?_)⟩
      rw [hdd]; exact List.mem_cons_self _ _
  simp only [formatContent, Bool.false_eq_true, if_false, hdata, paragraphs_single _ hnl hnb,
    List.map_cons, List.map_nil, formatParagraph,
    numberedMatch_list_item _ _ _ hd hdig ht hts htl hrl hrw]

/-- Witness of `format_list_item`: the line `1. **Title** body`. -/
theorem format_list_item_witness :
    formatContent false "1. **Title** body" =
      Rendered.blocks [DisplayBlock.listItem "1" "Title" "body"] :=
  format_list_item "1" "Title" "body" (by decide) (by decide) (by decide) (by decide)
    (by decide) (by decide) (by decide)

/-- C6 fails as stated: a rest that begins with a space loses it (the `\s*` after the
closing `**` takes it), and a title holding a carriage return is not matched at all, so the
line is shown as a paragraph. -/
theorem format_list_item_rest_whitespace :
    "1".data ≠ [] ∧ (∀ c ∈ "1".data, isDigit c = true) ∧
    "T".data ≠ [] ∧ '*' ∉ "T".data ∧ (∀ c ∈ " x".data, isLineTerminator c = false) ∧
    formatContent false ("1" ++ ". **" ++ "T" ++ "** " ++ " x") ≠
      Rendered.blocks [DisplayBlock.listItem "1" "T" " x"] ∧
    formatContent false ("1" ++ ". **" ++ "T" ++ "** " ++ " x") =
      Rendered.blocks [DisplayBlock.listItem "1" "T" "x"] ∧
    '*' ∉ "a\rb".data ∧
    formatContent false ("1" ++ ". **" ++ "a\rb" ++ "** " ++ "c") =
      Rendered.blocks [DisplayBlock.paragraph [Part.plain "1. **a\rb** c"]] := by
  decide

/-- C7: for strings `a`, `b`, `c` without `*` and without line terminator (LF, CR, U+2028,
U+2029), when the line `a**b**c` is not a numbered list item, it is formatted as exactly
one paragraph with the parts plain `a`, bold `b`, plain `c`. (The line is never blank: it
holds `*`.) -/
theorem format_bold_span (a b c : String)
    (ha : '*' ∉ a.data) (hb : '*' ∉ b.data) (hc : '*' ∉ c.data)
    (hal : ∀ x ∈ a.data, isLineTerminator x = false)
    (hbl : ∀ x ∈ b.data, isLineTerminator x = false)
    (hcl : ∀ x ∈ c.data, isLineTerminator x = false)
    (hnum : numberedMatch (a ++ "**" ++ b ++ "**" ++ c).data = none) :
    formatContent false (a ++ "**" ++ b ++ "**" ++ c) =
      Rendered.blocks
        [DisplayBlock.paragraph [Part.plain a, Part.bold b, Part.plain c]] := by
  have hdata : (a ++ "**" ++ b ++ "**" ++ c).data =
      a.data ++ '*' :: '*' :: (b.data ++ '*' :: '*' :: c.data) := by
    simp [String.data_append]
  rw [hdata] at hnum
  have hnl : '\n' ∉ a.data ++ '*' :: '*' :: (b.data ++ '*' :: '*' :: c.data) := by
    intro hmem
    simp only [List.mem_append, List.mem_cons] at hmem
    rcases hmem with h | h | h | h | h | h | h
    · exact ne_newline_of_not_lineTerminator _ (hal _ h) rfl
    · exact absurd h (by decide)
    · exact absurd h (by decide)
    · exact ne_newline_of_not_lineTerminator _ (hbl _ h) rfl
    · exact absurd h (by decide)
    · exact absurd h (by decide)
    · exact ne_newline_of_not_lineTerminator _ (hcl _ h) rfl
  have hnb : ∃ x ∈ a.data ++ '*' :: '*' :: (b.data ++ '*' :: '*' :: c.data),
      isWhiteSpace x = false := ⟨'*', by simp, by decide⟩
  have hra : renderPart a.data = Part.plain a :=
    renderPart_of_not_startsWithStars _ (noStars_of_not_mem _ ha _ (List.suffix_refl _))
  have hrc : renderPart c.data = Part.plain c :=
    renderPart_of_not_startsWithStars _ (noStars_of_not_mem _ hc _ (List.suffix_refl _))
  simp only [formatContent, Bool.false_eq_true, if_false, hdata, paragraphs_single _ hnl hnb,
    List.map_cons, List.map_nil, formatParagraph, hnum,
    splitBold_bold_span _ _ _ ha hb hc hbl, hra, hrc, renderPart_bold]

/-- Witness of `format_bold_span`: the line `plain **bold** text`. -/
theorem format_bold_span_witness :
    formatContent false "plain **bold** text" =
      Rendered.blocks
        [DisplayBlock.paragraph [Part.plain "plain ", Part.bold "bold", Part.plain " text"]] :=
  format_bold_span "plain " "bold" " text" (by decide) (by decide) (by decide) (by decide)
    (by decide) (by decide) (by decide)

/-- C8, the code at the failing inputs: a line that is only `**` or only `***` is shown as
an empty bold span, and the unpaired `**` that ends `**a****` as an empty bold span too;
the stars are not shown. -/
theorem format_lone_stars :
    formatContent false "**" = Rendered.blocks [DisplayBlock.paragraph [Part.bold ""]] ∧
    formatContent false "***" = Rendered.blocks [DisplayBlock.paragraph [Part.bold ""]] ∧
    formatContent false "**a****" =
      Rendered.blocks [DisplayBlock.paragraph [Part.plain "", Part.bold "a", Part.bold ""]] := by
  decide

/-- C9: the segments of a text are the pieces between its line feeds (joined by line feeds
they give the text back, and none holds a line feed); the blocks of an assistant text are
the formatted segments that hold a non-whitespace character, one block each, in order; so
there is no block exactly when every segment is blank, and the empty text has none. -/
theorem format_discards_blank_segments (text : String) :
    List.intercalate ['\n'] (splitOn '\n' text.data) = text.data ∧
    (∀ seg ∈ splitOn '\n' text.data, '\n' ∉ seg) ∧
    formatContent false text =
      Rendered.blocks
        (((splitOn '\n' text.data).filter
          (fun seg => seg.any (fun c => !isWhiteSpace c))).map formatParagraph) ∧
    (formatContent false text = Rendered.blocks [] ↔
      ∀ seg ∈ splitOn '\n' text.data, ∀ c ∈ seg, isWhiteSpace c = true) ∧
    formatContent false "" = Rendered.blocks [] := by
  refine ⟨intercalate_splitOn _ _, not_mem_of_mem_splitOn _ _, ?_, ?_, by decide⟩
  · simp only [formatContent, paragraphs_eq, Bool.false_eq_true, if_false]
  · simp only [formatContent, paragraphs_eq, Bool.false_eq_true, if_false, Rendered.blocks.injEq,
      List.map_eq_nil_iff, List.filter_eq_nil_iff, List.any_eq_true, not_exists, not_and,
      Bool.not_eq_true', Bool.not_eq_false]

/-- C10: when `**` does not occur in an assistant text, its blocks are, for the segments
that hold a non-whitespace character and in their order, a paragraph with the one plain part
equal to the segment itself (untrimmed); no list item and no bold span. -/
theorem format_plain_text (text : String) (h : ¬ (['*', '*'] <:+: text.data)) :
    formatContent false text =
      Rendered.blocks
        (((splitOn '\n' text.data).filter (fun seg => seg.any (fun c => !isWhiteSpace c))).map
          (fun line => DisplayBlock.paragraph [Part.plain (String.mk line)])) := by
  simp only [formatContent, paragraphs_eq, Bool.false_eq_true, if_false]
  congr 1
  apply List.map_congr_left
  intro seg hseg
  have h1 : seg ∈ splitOn '\n' text.data := (List.mem_filter.mp hseg).1
  have h2 : seg <:+: text.data := (splitOn_head_and_mem '\n' text.data).2 seg h1
  exact formatParagraph_of_noStars seg (noStars_of_not_occurring seg (fun hin => h (hin.trans h2)))

/-- Witness of `format_plain_text`: two lines of text around a blank one. -/
theorem format_plain_text_witness :
    formatContent false "Hello * there\n\n  how are you?" =
      Rendered.blocks
        [DisplayBlock.paragraph [Part.plain "Hello * there"],
         DisplayBlock.paragraph [Part.plain "  how are you?"]] :=
  (format_plain_text "Hello * there\n\n  how are you?" (by decide)).trans (by decide)

/-! ## Theorems: logout and the conversation list -/

/-- C14: after `handleLogout`, for every state and storage, the `token`, `user` and
`conversationId` fields of the storage are absent, the session in memory is
unauthenticated with no token, no user, no conversations and no active conversation (it is
the initial state), and a restore on the storage left yields no session. -/
theorem logout_clears_everything (s : AppState) (ls : Storage) :
    getItem (handleLogout s ls).2 "token" = none ∧
    getItem (handleLogout s ls).2 "user" = none ∧
    getItem (handleLogout s ls).2 "conversationId" = none ∧
    (handleLogout s ls).1.isAuthenticated = false ∧
    (handleLogout s ls).1.token = none ∧
    (handleLogout s ls).1.user = Json.null ∧
    (handleLogout s ls).1.conversations = [] ∧
    (handleLogout s ls).1.activeConversationId = none ∧
    (handleLogout s ls).1 = App.initial ∧
    restore (handleLogout s ls).1 (handleLogout s ls).2 = handleLogout s ls ∧
    (restore App.initial (handleLogout s ls).2).1.isAuthenticated = false := by
  have ht : getItem (handleLogout s ls).2 "token" = none := by
    simp [handleLogout, getItem_removeItem]
  have hg : restoreGuard (handleLogout s ls).2 = false := by
    simp [restoreGuard, ht, truthyOpt]
  refine ⟨ht, ?_, ?_, rfl, rfl, rfl, rfl, rfl, rfl, ?_, ?_⟩
  · simp [handleLogout, getItem_removeItem]
  · simp [handleLogout, getItem_removeItem]
  · simp [restore, hg]
  · simp [restore, hg, App.initial]

/-- C15: `loadConversations` never throws, whatever the request settles to; it sets the
conversation list to the array the backend returned when the request succeeds with an
array, and to the empty list when the request is rejected, has a non-success status, has a
body that cannot be read, or carries a value that is not an array. -/
theorem loadConversations_never_fails
    (fetchConversations : Option String → FetchResult ConversationsValue) (s : AppState) :
    (∃ s', loadConversations fetchConversations s = Except.ok s') ∧
    (∀ cs, fetchConversations s.token =
        FetchResult.response true (Except.ok (ConversationsValue.array cs)) →
      loadConversations fetchConversations s = Except.ok { s with conversations := cs }) ∧
    (∀ e, fetchConversations s.token = FetchResult.rejected e →
      loadConversations fetchConversations s = Except.ok { s with conversations := [] }) ∧
    (∀ json, fetchConversations s.token = FetchResult.response false json →
      loadConversations fetchConversations s = Except.ok { s with conversations := [] }) ∧
    (∀ e, fetchConversations s.token = FetchResult.response true (Except.error e) →
      loadConversations fetchConversations s = Except.ok { s with conversations := [] }) ∧
    (fetchConversations s.token =
        FetchResult.response true (Except.ok ConversationsValue.falsy) →
      loadConversations fetchConversations s = Except.ok { s with conversations := [] }) ∧
    (fetchConversations s.token =
        FetchResult.response true (Except.ok ConversationsValue.other) →
      loadConversations fetchConversations s = Except.ok { s with conversations := [] }) := by
  refine ⟨?_, ?_, ?_, ?_, ?_, ?_, ?_⟩
  · cases h : fetchConversations s.token with
    | rejected e =>
      exact ⟨_, by simp [loadConversations, getUserConversations, h, Except.tryCatch,
        Except.bind]; rfl⟩
    | response ok json =>
      cases ok with
      | false =>
        exact ⟨_, by simp [loadConversations, getUserConversations, h, Except.tryCatch,
          Except.bind]; rfl⟩
      | true =>
        cases json with
        | error e =>
          exact ⟨_, by simp [loadConversations, getUserConversations, h, Except.tryCatch,
            Except.bind]; rfl⟩
        | ok v =>
          cases v <;>
          exact ⟨_, by simp [loadConversations, getUserConversations, h, Except.tryCatch,
            Except.bind]; rfl⟩
  all_goals
    intros
    simp_all [loadConversations, getUserConversations, Except.tryCatch, Except.bind]

/-! ## Theorems: the reply and the input form -/

/-- C16: on a successful send from a state with `humanHandoff` false, the transcript is the
old transcript, then the user message, then one assistant message with the reply as
content and `needsHuman` equal to the `needs_human` of the reply (false when absent);
afterwards `humanHandoff` is true exactly when the reply carries `needs_human` true, and
`isLoading` is false. -/
theorem send_reply_handoff (props : ChatProps) (env : SendEnv) (s : ChatState) (ls : Storage)
    (text : String) (r : ChatResponse) (hh : s.humanHandoff = false)
    (hok : sendMessage env.fetchChat text s.conversationId props.token = Except.ok r) :
    (handleSendMessage props env s ls text).state.messages =
      s.messages ++
        [{ role := Role.user, content := text, timestamp := env.sentAt, needsHuman := none },
         { role := Role.assistant, content := r.reply, timestamp := env.repliedAt,
           needsHuman := some (r.needs_human.getD false) }] ∧
    ((handleSendMessage props env s ls text).state.humanHandoff = true ↔
      r.needs_human = some true) ∧
    (handleSendMessage props env s ls text).state.isLoading = false := by
  by_cases hn : r.needs_human = some true <;>
  by_cases ha : truthyOpt s.conversationId = true <;>
    simp [handleSendMessage, hh, hok, hn, ha]

/-- Witness of `send_reply_handoff`: a reply that asks for a human. -/
theorem send_reply_handoff_witness :
    (handleSendMessage
      { token := some "abc", conversationId := some "c1", onConversationCreated := true }
      { fetchChat := fun _ _ _ => FetchResult.response true
          (Except.ok { conversation_id := "c1", reply := "wait", needs_human := some true }),
        sentAt := "t1", repliedAt := "t2" }
      { messages := [], conversationId := some "c1", isLoading := false,
        humanHandoff := false, welcomeMessage := "", showPopup := false }
      [] "help").state.humanHandoff = true :=
  (send_reply_handoff _ _ _ _ "help"
    { conversation_id := "c1", reply := "wait", needs_human := some true }
    (by rfl) (by rfl)).2.1.mpr (by rfl)

/-- C17: submitting the input calls `onSend` exactly when the text holds a character that
is not whitespace and neither `humanHandoff` nor `isLoading` is set, and then once, with
the text as typed; in every other case `onSend` is not called. -/
theorem submit_gating (s : ChatState) (text : String) :
    ((handleSubmit (inputDisabled s) text).sent = [text] ↔
      (∃ c ∈ text.data, isWhiteSpace c = false) ∧ s.humanHandoff = false ∧
        s.isLoading = false) ∧
    ((handleSubmit (inputDisabled s) text).sent = [text] ∨
      (handleSubmit (inputDisabled s) text).sent = []) ∧
    (s.isLoading = true → (handleSubmit (inputDisabled s) text).sent = []) ∧
    (s.humanHandoff = true → (handleSubmit (inputDisabled s) text).sent = []) ∧
    ((∀ c ∈ text.data, isWhiteSpace c = true) →
      (handleSubmit (inputDisabled s) text).sent = []) := by
  have hany : (text.data.any (fun c => !isWhiteSpace c)) = true ↔
      ∃ c ∈ text.data, isWhiteSpace c = false := by
    simp [List.any_eq_true]
  by_cases hc : (text.data.any (fun c => !isWhiteSpace c)) = true
  · have hex := hany.mp hc
    have hnall : ¬ ∀ c ∈ text.data, isWhiteSpace c = true := by
      obtain ⟨c, hc1, hc2⟩ := hex
      intro hall
      rw [hall c hc1] at hc2
      exact absurd hc2 (by simp)
    cases hh : s.humanHandoff <;> cases hl : s.isLoading <;>
      simp [handleSubmit, inputDisabled, trim_isEmpty, hc, hh, hl, hex, hnall]
  · have hnex : ¬ ∃ c ∈ text.data, isWhiteSpace c = false := fun h => hc (hany.mpr h)
    simp only [Bool.not_eq_true] at hc
    simp [handleSubmit, inputDisabled, trim_isEmpty, hc, hnex]

/-! ## Theorems: the widget as a state machine -/

/-- C13, the code at the failing input: a widget that shows conversation `c1` with
`humanHandoff` set is given the conversation id `c2`. When the load succeeds the transcript
is the loaded one but `humanHandoff` is still set; when the load fails the transcript of
`c1` stays. Only a change to no conversation clears both. -/
theorem conversation_change_keeps_handoff :
    (step (Event.conversationChange (some "c2")
        (FetchResult.response true (Except.ok
          [{ role := Role.assistant, content := "new", timestamp := "t0", needsHuman := none }]))
        "t")
      { props := { token := some "abc", conversationId := some "c1",
                   onConversationCreated := true },
        state := { messages := [{ role := Role.user, content := "old", timestamp := "t0",
                                  needsHuman := none }],
                   conversationId := some "c1", isLoading := false, humanHandoff := true,
                   welcomeMessage := "", showPopup := false },
        storage := [], welcomePending := false }).state =
      { messages := [{ role := Role.assistant, content := "new", timestamp := "t0",
                       needsHuman := none }],
        conversationId := some "c2", isLoading := false, humanHandoff := true,
        welcomeMessage := "", showPopup := false } ∧
    (step (Event.conversationChange (some "c2") (FetchResult.response false (Except.error "500"))
        "t")
      { props := { token := some "abc", conversationId := some "c1",
                   onConversationCreated := true },
        state := { messages := [{ role := Role.user, content := "old", timestamp := "t0",
                                  needsHuman := none }],
                   conversationId := some "c1", isLoading := false, humanHandoff := true,
                   welcomeMessage := "", showPopup := false },
        storage := [], welcomePending := false }).state =
      { messages := [{ role := Role.user, content := "old", timestamp := "t0",
                       needsHuman := none }],
        conversationId := some "c2", isLoading := false, humanHandoff := true,
        welcomeMessage := "", showPopup := false } ∧
    (step (Event.conversationChange none (FetchResult.rejected "unused") "t")
      { props := { token := some "abc", conversationId := some "c1",
                   onConversationCreated := true },
        state := { messages := [{ role := Role.user, content := "old", timestamp := "t0",
                                  needsHuman := none }],
                   conversationId := some "c1", isLoading := false, humanHandoff := true,
                   welcomeMessage := "", showPopup := false },
        storage := [], welcomePending := false }).state =
      { messages := [], conversationId := none, isLoading := false, humanHandoff := false,
        welcomeMessage := "", showPopup := false } := by
  decide

theorem fetchWelcomeMessage_frame (r : FetchResult Settings) (s : ChatState) :
    (fetchWelcomeMessage r s).messages = s.messages ∧
    (fetchWelcomeMessage r s).humanHandoff = s.humanHandoff ∧
    (fetchWelcomeMessage r s).conversationId = s.conversationId := by
  cases r with
  | rejected e => simp [fetchWelcomeMessage]
  | response ok json =>
    cases ok <;> cases json <;> simp [fetchWelcomeMessage]

theorem welcomeEffect_frame (props : ChatProps) (rendered s : ChatState) (now : String) :
    (welcomeEffect props rendered now s).humanHandoff = s.humanHandoff ∧
    (welcomeEffect props rendered now s).conversationId = s.conversationId ∧
    (welcomeEffect props rendered now s).welcomeMessage = s.welcomeMessage := by
  unfold welcomeEffect
  split <;> simp

theorem welcomeEffect_user_messages (props : ChatProps) (rendered s : ChatState) (now : String)
    (h : rendered.messages = s.messages) :
    (welcomeEffect props rendered now s).messages.filter (fun m => m.role == Role.user) =
      s.messages.filter (fun m => m.role == Role.user) := by
  unfold welcomeEffect
  split
  · rename_i hc
    simp only [Bool.and_eq_true, beq_iff_eq, List.length_eq_zero] at hc
    have hnil : s.messages = [] := by rw [← h]; exact hc.1.1
    simp [hnil]
  · rfl

theorem awaitingReply_messages (props : ChatProps) (env : SendEnv) (s : ChatState)
    (ls : Storage) (text : String) (hh : s.humanHandoff = false) :
    ∃ m : Message, m.role = Role.assistant ∧
      (handleSendMessage props env s ls text).state.messages =
        (awaitingReply env s text).messages ++ [m] := by
  cases hr : sendMessage env.fetchChat text s.conversationId props.token with
  | error e =>
    exact ⟨{ role := Role.assistant, content := apology, timestamp := env.repliedAt,
             needsHuman := none }, rfl,
      by simp [handleSendMessage, awaitingReply, hh, hr]⟩
  | ok r =>
    refine ⟨{ role := Role.assistant, content := r.reply, timestamp := env.repliedAt,
              needsHuman := some (r.needs_human.getD false) }, rfl, ?_⟩
    by_cases hn : r.needs_human = some true <;>
    by_cases ha : truthyOpt s.conversationId = true <;>
      simp [handleSendMessage, awaitingReply, hh, hr, hn, ha]

theorem step_in_handoff (w : Widget) (e : Event) (h : w.state.humanHandoff = true)
    (hne : ∀ newId load now, e ≠ Event.conversationChange newId load now) :
    (step e w).state.humanHandoff = true ∧
    (step e w).state.messages.filter (fun m => m.role == Role.user) =
      w.state.messages.filter (fun m => m.role == Role.user) := by
  cases e with
  | conversationChange newId load now => exact absurd rfl (hne newId load now)
  | welcomeLoaded result now =>
    simp only [step]
    by_cases hp : w.welcomePending = true
    · simp only [hp, if_true]
      obtain ⟨f1, f2, _⟩ := fetchWelcomeMessage_frame result w.state
      split
      · constructor
        · rw [(welcomeEffect_frame _ _ _ _).1, f2, h]
        · rw [welcomeEffect_user_messages _ _ _ _ rfl, f1]
      · exact ⟨by rw [f2, h], by rw [f1]⟩
    · simp [hp]
      exact h
  | send text reply sentAt repliedAt =>
    simp [step, handleSendMessage, h]
  | humanConnect =>
    simp [step, handleHumanConnect, h]
  | popupClosed =>
    simp [step, h]

/-- C12: from a state with `humanHandoff` set, along every sequence of steps none of which
is a conversation change (sends, the arrival of the welcome text, popup events),
`humanHandoff` stays set and the user messages of the transcript stay the same; a send
there does not even reach the state in which a reply is awaited. -/
theorem handoff_blocks_user_messages (w : Widget) (events : List Event)
    (h : w.state.humanHandoff = true)
    (hne : ∀ e ∈ events, ∀ newId load now, e ≠ Event.conversationChange newId load now) :
    (run events w).state.humanHandoff = true ∧
    (run events w).state.messages.filter (fun m => m.role == Role.user) =
      w.state.messages.filter (fun m => m.role == Role.user) ∧
    (∀ env text, awaitingReply env w.state text = w.state) := by
  refine ⟨?_, ?_, ?_⟩
  · induction events generalizing w with
    | nil => exact h
    | cons e es ih =>
      have hs := step_in_handoff w e h (hne e (List.mem_cons_self _ _))
      exact ih (step e w) hs.1 (fun e' he' => hne e' (List.mem_cons_of_mem _ he'))
  · induction events generalizing w with
    | nil => rfl
    | cons e es ih =>
      have hs := step_in_handoff w e h (hne e (List.mem_cons_self _ _))
      have := ih (step e w) hs.1 (fun e' he' => hne e' (List.mem_cons_of_mem _ he'))
      simp only [run, List.foldl_cons] at this ⊢
      rw [this, hs.2]
  · intro env text
    simp [awaitingReply, h]

/-- Witness of `handoff_blocks_user_messages`: in a handed-off chat a send and the arrival
of the welcome text add no user message. -/
theorem handoff_blocks_user_messages_witness :
    (run [Event.send "hello" (FetchResult.response true
            (Except.ok { conversation_id := "c1", reply := "hi", needs_human := none }))
            "t1" "t2",
          Event.welcomeLoaded (FetchResult.response true
            (Except.ok { welcome_message := some "Welcome" })) "t3"]
      { props := { token := some "abc", conversationId := some "c1",
                   onConversationCreated := true },
        state := { messages := [{ role := Role.user, content := "help", timestamp := "t0",
                                  needsHuman := none }],
                   conversationId := some "c1", isLoading := false, humanHandoff := true,
                   welcomeMessage := "", showPopup := false },
        storage := [], welcomePending := true }).state.messages.filter
        (fun m => m.role == Role.user) =
      [{ role := Role.user, content := "help", timestamp := "t0", needsHuman := none }] :=
  (handoff_blocks_user_messages _ _ (by rfl)
    (by
      intro e he newId load now
      simp only [List.mem_cons, List.mem_singleton, List.not_mem_nil, or_false] at he
      rcases he with rfl | rfl <;> simp)).2.1

/-- The invariant carried through the steps that send nothing. -/
theorem step_fresh (w : Widget) (e : Event)
    (hns : ∀ text reply t1 t2, e ≠ Event.send text reply t1 t2)
    (h1 : w.state.conversationId = w.props.conversationId)
    (h2 : w.welcomePending = true → w.state.welcomeMessage = "")
    (h3 : w.state.conversationId = none → w.state.messages = [] ∨
      (truthy w.state.welcomeMessage = true ∧ ∃ t, w.state.messages =
        [{ role := Role.assistant, content := w.state.welcomeMessage, timestamp := t,
           needsHuman := none }])) :
    (step e w).state.conversationId = (step e w).props.conversationId ∧
    ((step e w).welcomePending = true → (step e w).state.welcomeMessage = "") ∧
    ((step e w).state.conversationId = none → (step e w).state.messages = [] ∨
      (truthy (step e w).state.welcomeMessage = true ∧ ∃ t, (step e w).state.messages =
        [{ role := Role.assistant, content := (step e w).state.welcomeMessage, timestamp := t,
           needsHuman := none }])) := by
  cases e with
  | send text reply t1 t2 => exact absurd rfl (hns text reply t1 t2)
  | humanConnect => exact ⟨h1, h2, h3⟩
  | popupClosed => exact ⟨h1, h2, h3⟩
  | conversationChange newId load now =>
    simp only [step]
    by_cases hsame : (newId == w.props.conversationId) = true
    · simp only [hsame, if_true]
      exact ⟨h1, h2, h3⟩
    · simp only [hsame, if_false, Bool.false_eq_true]
      cases newId with
      | some id =>
        have hc : ∀ s : ChatState,
            (conversationEffect (fun _ _ => load)
              { w.props with conversationId := some id } s).conversationId = some id ∧
            (conversationEffect (fun _ _ => load)
              { w.props with conversationId := some id } s).welcomeMessage =
              s.welcomeMessage := by
          intro s
          unfold conversationEffect loadConversationMessages
          cases load with
          | rejected e => by_cases ht : truthyOpt (some id) = true <;> simp [ht]
          | response ok json =>
            by_cases ht : truthyOpt (some id) = true <;> cases ok <;> cases json <;> simp [ht]
        refine ⟨?_, ?_, ?_⟩
        · rw [(welcomeEffect_frame _ _ _ _).2.1, (hc _).1]
        · intro hp
          rw [(welcomeEffect_frame _ _ _ _).2.2, (hc _).2]
          exact h2 hp
        · intro hn
          rw [(welcomeEffect_frame _ _ _ _).2.1, (hc _).1] at hn
          exact absurd hn (by simp)
      | none =>
        refine ⟨?_, ?_, ?_⟩
        · simp [welcomeEffect_frame, conversationEffect, truthyOpt]
        · intro hp
          simp only [welcomeEffect_frame, conversationEffect, truthyOpt, Bool.false_eq_true,
            if_false]
          exact h2 hp
        · intro _
          by_cases hcond : (w.state.messages.length == 0 && truthy w.state.welcomeMessage) = true
          · right
            have ht : truthy w.state.welcomeMessage = true := by
              simp only [Bool.and_eq_true] at hcond
              exact hcond.2
            simp only [welcomeEffect, conversationEffect, truthyOpt, hcond, Bool.false_eq_true,
              if_false, Bool.not_false, Bool.and_true, if_true]
            exact ⟨ht, now, rfl⟩
          · left
            simp only [Bool.not_eq_true] at hcond
            simp [welcomeEffect, conversationEffect, truthyOpt, hcond]
  | welcomeLoaded result now =>
    simp only [step]
    by_cases hp : w.welcomePending = true
    · simp only [hp, if_true]
      obtain ⟨f1, _, f3⟩ := fetchWelcomeMessage_frame result w.state
      have hold : w.state.welcomeMessage = "" := h2 hp
      refine ⟨?_, by simp, ?_⟩
      · split
        · rw [(welcomeEffect_frame _ _ _ _).2.1, f3]; exact h1
        · rw [f3]; exact h1
      · split
        · rename_i hchg
          intro hn
          rw [(welcomeEffect_frame _ _ _ _).2.1, f3] at hn
          have hm : w.state.messages = [] := by
            rcases h3 hn with hm | ⟨ht, _⟩
            · exact hm
            · rw [hold] at ht
              exact absurd ht (by decide)
          have hpn : w.props.conversationId = none := by rw [← h1]; exact hn
          have ht : truthy (fetchWelcomeMessage result w.state).welcomeMessage = true := by
            rw [hold] at hchg
            exact hchg
          right
          refine ⟨by rw [(welcomeEffect_frame _ _ _ _).2.2]; exact ht, now, ?_⟩
          simp [welcomeEffect, f1, hm, ht, hpn, truthyOpt]
        · rename_i hchg
          intro hn
          rw [f3] at hn
          have hm : w.state.messages = [] := by
            rcases h3 hn with hm | ⟨ht, _⟩
            · exact hm
            · rw [hold] at ht
              exact absurd ht (by decide)
          left
          rw [f1]; exact hm
    · simp only [hp, if_false, Bool.false_eq_true]
      exact ⟨h1, fun hf => hf.elim, h3⟩

theorem mount_fresh (props : ChatProps) (ls : Storage) (load : FetchResult (List Message))
    (now : String) :
    (mount props ls load now).state.conversationId = (mount props ls load now).props.conversationId ∧
    ((mount props ls load now).welcomePending = true →
      (mount props ls load now).state.welcomeMessage = "") ∧
    ((mount props ls load now).state.conversationId = none →
      (mount props ls load now).state.messages = []) := by
  have hw : welcomeEffect props (ChatWidget.initial props) now =
      fun s => s := by
    funext s
    simp [welcomeEffect, ChatWidget.initial, truthy]
  simp only [mount, hw]
  cases hid : props.conversationId with
  | none => simp [conversationEffect, hid, truthyOpt, ChatWidget.initial]
  | some id =>
    unfold conversationEffect loadConversationMessages
    cases load with
    | rejected e =>
      by_cases ht : truthyOpt (some id) = true <;> simp [ht, hid, ChatWidget.initial]
    | response ok json =>
      by_cases ht : truthyOpt (some id) = true <;> cases ok <;> cases json <;>
        simp [ht, hid, ChatWidget.initial]

/-- C11 (as amended): in every state reached from the mount by conversation-id changes, the
arrival of the welcome text and popup events, with no send and each request settled before
the next event, the conversation id of the controller is the one passed by the parent, and
when it is null the transcript is empty or is the single welcome message (from the
assistant, with the current welcome text, without `needsHuman`). -/
theorem fresh_transcript_invariant (props : ChatProps) (ls : Storage)
    (load : FetchResult (List Message)) (now : String) (events : List Event)
    (hns : ∀ e ∈ events, ∀ text reply t1 t2, e ≠ Event.send text reply t1 t2) :
    (run events (mount props ls load now)).state.conversationId =
      (run events (mount props ls load now)).props.conversationId ∧
    ((run events (mount props ls load now)).state.conversationId = none →
      (run events (mount props ls load now)).state.messages = [] ∨
      ∃ t, (run events (mount props ls load now)).state.messages =
        [{ role := Role.assistant,
           content := (run events (mount props ls load now)).state.welcomeMessage,
           timestamp := t, needsHuman := none }]) := by
  have key : ∀ (evs : List Event) (w : Widget),
      (∀ e ∈ evs, ∀ text reply t1 t2, e ≠ Event.send text reply t1 t2) →
      w.state.conversationId = w.props.conversationId →
      (w.welcomePending = true → w.state.welcomeMessage = "") →
      (w.state.conversationId = none → w.state.messages = [] ∨
        (truthy w.state.welcomeMessage = true ∧ ∃ t, w.state.messages =
          [{ role := Role.assistant, content := w.state.welcomeMessage, timestamp := t,
             needsHuman := none }])) →
      (run evs w).state.conversationId = (run evs w).props.conversationId ∧
      ((run evs w).state.conversationId = none → (run evs w).state.messages = [] ∨
        (truthy (run evs w).state.welcomeMessage = true ∧ ∃ t, (run evs w).state.messages =
          [{ role := Role.assistant, content := (run evs w).state.welcomeMessage,
             timestamp := t, needsHuman := none }])) := by
    intro evs
    induction evs with
    | nil => intro w _ h1 _ h3; exact ⟨h1, h3⟩
    | cons e es ih =>
      intro w hs h1 h2 h3
      obtain ⟨g1, g2, g3⟩ := step_fresh w e (hs e (List.mem_cons_self _ _)) h1 h2 h3
      exact ih (step e w) (fun e' he' => hs e' (List.mem_cons_of_mem _ he')) g1 g2 g3
  obtain ⟨m1, m2, m3⟩ := mount_fresh props ls load now
  obtain ⟨r1, r2⟩ := key events (mount props ls load now) hns m1 m2
    (fun hn => Or.inl (m3 hn))
  refine ⟨r1, fun hn => ?_⟩
  rcases r2 hn with h | ⟨_, h⟩
  · exact Or.inl h
  · exact Or.inr h

/-- Witness of `fresh_transcript_invariant`: a fresh chat in which the welcome text
arrives and the popup is opened. -/
theorem fresh_transcript_invariant_witness :
    (run [Event.welcomeLoaded (FetchResult.response true
            (Except.ok { welcome_message := some "Welcome" })) "t1",
          Event.humanConnect]
        (mount { token := some "abc", conversationId := none, onConversationCreated := true }
          [] (FetchResult.rejected "not requested") "t0")).state.messages = [] ∨
    ∃ t, (run [Event.welcomeLoaded (FetchResult.response true
            (Except.ok { welcome_message := some "Welcome" })) "t1",
          Event.humanConnect]
        (mount { token := some "abc", conversationId := none, onConversationCreated := true }
          [] (FetchResult.rejected "not requested") "t0")).state.messages =
      [{ role := Role.assistant,
         content := (run [Event.welcomeLoaded (FetchResult.response true
            (Except.ok { welcome_message := some "Welcome" })) "t1",
          Event.humanConnect]
        (mount { token := some "abc", conversationId := none, onConversationCreated := true }
          [] (FetchResult.rejected "not requested") "t0")).state.welcomeMessage,
         timestamp := t, needsHuman := none }] :=
  (fresh_transcript_invariant
    { token := some "abc", conversationId := none, onConversationCreated := true }
    [] (FetchResult.rejected "not requested") "t0"
    [Event.welcomeLoaded (FetchResult.response true
        (Except.ok { welcome_message := some "Welcome" })) "t1",
      Event.humanConnect]
    (by
      intro e he text reply t1 t2
      simp only [List.mem_cons, List.mem_singleton, List.not_mem_nil, or_false] at he
      rcases he with rfl | rfl <;> simp)).2 (by rfl)

/-- C11 fails as stated: in a fresh chat showing the welcome message, a send that fails
leaves the conversation id null and a transcript of three messages; and while the reply of
any send is awaited the id is null and the transcript holds the welcome message and the
user message. -/
theorem failed_send_breaks_fresh_transcript :
    (run [Event.welcomeLoaded (FetchResult.response true
            (Except.ok { welcome_message := some "Welcome" })) "t1",
          Event.send "hello" (FetchResult.response false (Except.error "500")) "t2" "t3"]
        (mount { token := some "abc", conversationId := none, onConversationCreated := true }
          [] (FetchResult.rejected "not requested") "t0")).state =
      { messages :=
          [{ role := Role.assistant, content := "Welcome", timestamp := "t1",
             needsHuman := none },
           { role := Role.user, content := "hello", timestamp := "t2", needsHuman := none },
           { role := Role.assistant, content := "Sorry, an error occurred. Please try again.",
             timestamp := "t3", needsHuman := none }],
        conversationId := none, isLoading := false, humanHandoff := false,
        welcomeMessage := "Welcome", showPopup := false } ∧
    awaitingReply
        { fetchChat := fun _ _ _ => FetchResult.response false (Except.error "500"),
          sentAt := "t2", repliedAt := "t3" }
        (run [Event.welcomeLoaded (FetchResult.response true
            (Except.ok { welcome_message := some "Welcome" })) "t1"]
          (mount { token := some "abc", conversationId := none, onConversationCreated := true }
            [] (FetchResult.rejected "not requested") "t0")).state "hello" =
      { messages :=
          [{ role := Role.assistant, content := "Welcome", timestamp := "t1",
             needsHuman := none },
           { role := Role.user, content := "hello", timestamp := "t2", needsHuman := none }],
        conversationId := none, isLoading := true, humanHandoff := false,
        welcomeMessage := "Welcome", showPopup := false } := by
  decide

end Chatbot
